import Mathlib

/-! Field and group requests (`share/field/field_request.hpp`).

A shallow embedding of the request structures of
`components/scream/src/share/field/field_request.hpp`:

* the enums `Bundling` and `Relationship` with their integer values (`etoi`),
* `GroupRequest`, its main constructor and its two convenience overloads,
* `operator<` on `GroupRequest`,
* `FieldRequest` with its main constructor and its `operator<`,
* the size distribution functions `get_cloud_dsd2` and `get_rain_dsd2` of
  `physics/p3/p3_functions_dsd2_impl.hpp`,
* the request registry and the resolver of the specification, and the radiation
  utilities `radiation_do` and `limit_to_bounds`, none of which is part of the embedded
  sources: they are modelled from the specification.

Conventions of the embedding.

* `std::string` is `String`; `std::string::operator<` is the lexicographic order on the
  characters, which is the order of `String`.
* `int` is `Int`.  The only arithmetic on an `int` is `ps-1` in the `FieldRequest`
  constructor, which is evaluated after `ps>=1` has been checked and so cannot overflow.
* `EKAT_REQUIRE_MSG (cond, msg)` raises an error carrying `msg` when `cond` is false;
  a constructor is a function into `Except String _` whose error is the message of the
  first check that fails.
* `std::shared_ptr<GroupRequest>` is `Option GroupRequest`, a null pointer being `none`.
* The main `GroupRequest` constructor assigns `relative_type` only when the relative
  pointer is not null.  In the other case the member keeps an indeterminate value; the
  embedding takes that value as the extra argument `uninit` of the constructors, and every
  statement below quantifies over it.
-/

namespace scream

/-! ## Enums -/

/-- Bundling of a field group: needed, optional, or not needed (`enum class Bundling : int`). -/
inductive Bundling where
  | Required
  | Preferred
  | NotNeeded
  deriving DecidableEq, Repr

/-- Relationship between two groups (`enum class Relationship : int`). -/
inductive Relationship where
  | None
  | Alias
  | Parent
  | Child
  deriving DecidableEq, Repr

/-- The underlying integer of a `Bundling` value (`etoi`). -/
def Bundling.etoi : Bundling → Int
  | .Required => 0
  | .Preferred => 1
  | .NotNeeded => 2

/-- The underlying integer of a `Relationship` value (`etoi`). -/
def Relationship.etoi : Relationship → Int
  | .None => 0
  | .Alias => 1
  | .Parent => 2
  | .Child => 3

/-! ## GroupRequest -/

/-- The struct `GroupRequest`.  The member `releative` (spelt as in the source) is the
shared pointer to the relative group request. -/
inductive GroupRequest where
  | mk (name : String) (grid : String) (pack_size : Int)
       (releative : Option GroupRequest) (bundling : Bundling)
       (relative_type : Relationship) (exclude : List String)
  deriving Repr

namespace GroupRequest

/-- Member `name`. -/
def name : GroupRequest → String
  | mk n _ _ _ _ _ _ => n

/-- Member `grid`. -/
def grid : GroupRequest → String
  | mk _ g _ _ _ _ _ => g

/-- Member `pack_size`. -/
def pack_size : GroupRequest → Int
  | mk _ _ p _ _ _ _ => p

/-- Member `releative`. -/
def releative : GroupRequest → Option GroupRequest
  | mk _ _ _ r _ _ _ => r

/-- Member `bundling`. -/
def bundling : GroupRequest → Bundling
  | mk _ _ _ _ b _ _ => b

/-- Member `relative_type`. -/
def relative_type : GroupRequest → Relationship
  | mk _ _ _ _ _ t _ => t

/-- Member `exclude`. -/
def exclude : GroupRequest → List String
  | mk _ _ _ _ _ _ e => e

/-- Main constructor `GroupRequest (name_, grid_, ps, b, r, t, excl)`.

The members `name`, `grid`, `pack_size`, `bundling` are initialised from the arguments,
`releative` starts as the null pointer and `exclude` as the empty list; `relative_type`
has no initialiser and starts with the indeterminate value `uninit`.  The checks are made
in the order of the source and the first one that fails raises its message. -/
def ctor (name_ grid_ : String) (ps : Int) (b : Bundling) (r : Option GroupRequest)
    (t : Relationship) (excl : List String) (uninit : Relationship) :
    Except String GroupRequest :=
  if ¬ (ps ≥ 1) then
    .error "Error! Invalid pack size request.\n"
  else
    match r with
    | none => .ok (mk name_ grid_ ps none b uninit [])
    | some r' =>
      if ¬ (t ≠ Relationship.None) then
        .error "Error! RelativType cannot be None if the relative pointer is not null.\n"
      else if ¬ (excl.length = 0 ∨ t = Relationship.Child) then
        .error "Error! You can only exclude fields from a releative group if creating a Subset child group.\n"
      else if ¬ (r'.releative.isNone = true) then
        .error "Error! We cannot handle multiple levels of nested groups.\n"
      else
        .ok (mk name_ grid_ ps (some r') b t excl)

/-- Convenience overload `GroupRequest (name_, grid_, ps, b)`: delegates to the main
constructor with a null relative, `Relationship::None` and an empty exclude list. -/
def ctorPackSize (name_ grid_ : String) (ps : Int) (b : Bundling) (uninit : Relationship) :
    Except String GroupRequest :=
  ctor name_ grid_ ps b none Relationship.None [] uninit

/-- Convenience overload `GroupRequest (name_, grid_, b)`: delegates to the previous
overload with pack size 1. -/
def ctorBundling (name_ grid_ : String) (b : Bundling) (uninit : Relationship) :
    Except String GroupRequest :=
  ctorPackSize name_ grid_ 1 b uninit

/-- The convenience overload `GroupRequest (name_, grid_, b)` called with the bundling
argument omitted, so that it takes its default `Bundling::NotNeeded`. -/
def ctorDefaultBundling (name_ grid_ : String) (uninit : Relationship) :
    Except String GroupRequest :=
  ctorBundling name_ grid_ Bundling.NotNeeded uninit

/-- The `operator<` of `GroupRequest`, branch by branch as in the source.  The recursive
calls are the comparisons `(*lhs.releative) < (*rhs.releative)` and
`(*rhs.releative) < (*lhs.releative)` of the relatives. -/
def lt : GroupRequest → GroupRequest → Bool
  | mk ln lg lp lr lb lty _, mk rn rg rp rr rb rty _ =>
    if ln < rn then true
    else if ln = rn then
      if lg < rg then true
      else if lg = rg then
        if lp < rp then true
        else if lp = rp then
          match lr, rr with
          | none, rr => rr.isSome
          | some l', some r' =>
            if lt l' r' then true
            else if ! lt r' l' then
              decide (lb.etoi < rb.etoi) ||
                (decide (lb.etoi = rb.etoi) && decide (lty.etoi < rty.etoi))
            else false
          | some _, none => false
        else false
      else false
    else false
termination_by l r => sizeOf l + sizeOf r

/-- A successfully constructed request: the value returned by the main constructor for
some arguments.  The convenience overloads delegate to the main constructor, and the copy
constructor returns an equal value, so every `GroupRequest` object of the program is of
this form.  The relative passed to the constructor is left arbitrary, so the statements
proved under this hypothesis cover in particular the relatives that were constructed
themselves. -/
def Constructed (g : GroupRequest) : Prop :=
  ∃ (name_ grid_ : String) (ps : Int) (b : Bundling) (r : Option GroupRequest)
    (t : Relationship) (excl : List String) (uninit : Relationship),
    ctor name_ grid_ ps b r t excl uninit = .ok g

/-- Two requests are unordered when neither is less than the other. -/
def Unordered (a b : GroupRequest) : Prop :=
  lt a b = false ∧ lt b a = false

/-! ### The key compared by `operator<`

The definitions below are not part of the source: `key` is the tuple that `operator<`
compares on requests without nested relatives (`lt_iff_key`), and `specKey` is the key of
the specification, written from its words. -/

/-- Key of a request that has a relative `r`, below the common part: name, grid and pack
size of the relative, then bundling and relationship of the request itself. -/
abbrev RelKey := String ×ₗ String ×ₗ Int ×ₗ Int ×ₗ Int

/-- Key compared by `lt`: name, grid, pack size, then `⊥` for a request without relative
and the `RelKey` for a request with one. -/
abbrev Key := String ×ₗ String ×ₗ Int ×ₗ WithBot RelKey

/-- The `RelKey` of the request `g` whose relative is `r`. -/
def relKey (g r : GroupRequest) : RelKey :=
  toLex (r.name, toLex (r.grid, toLex (r.pack_size,
    toLex (g.bundling.etoi, g.relative_type.etoi))))

/-- The key of a request as `lt` compares it. -/
def key (g : GroupRequest) : Key :=
  toLex (g.name, toLex (g.grid, toLex (g.pack_size,
    match g.releative with
    | none => (⊥ : WithBot RelKey)
    | some r => ((relKey g r : RelKey) : WithBot RelKey))))

/-- Nesting depth at most 1: the relative of a request, when present, has no relative. -/
def NoNested (g : GroupRequest) : Prop :=
  ∀ r, g.releative = some r → r.releative = none

/-- Key of a relative in the specification's order, one level down: name, grid, pack size,
bundling, relationship (the relative of a relative is absent). -/
abbrev SpecRelKey := String ×ₗ String ×ₗ Int ×ₗ Int ×ₗ Int

/-- Key of the specification: name, grid, pack size, relative (absent `⊥` before present,
two present relatives by their own key), bundling, relationship. -/
abbrev SpecKey := String ×ₗ String ×ₗ Int ×ₗ WithBot SpecRelKey ×ₗ Int ×ₗ Int

/-- The specification's key of a relative. -/
def specRelKey (r : GroupRequest) : SpecRelKey :=
  toLex (r.name, toLex (r.grid, toLex (r.pack_size,
    toLex (r.bundling.etoi, r.relative_type.etoi))))

/-- The specification's key `(name, grid, pack_size, relative-presence, relative-value,
bundling, relationship)` of a request; enums enter by their integer values. -/
def specKey (g : GroupRequest) : SpecKey :=
  toLex (g.name, toLex (g.grid, toLex (g.pack_size,
    toLex ((match g.releative with
            | none => (⊥ : WithBot SpecRelKey)
            | some r => ((specRelKey r : SpecRelKey) : WithBot SpecRelKey)),
      toLex (g.bundling.etoi, g.relative_type.etoi)))))

/-- Insertion of `x` into a `std::set<GroupRequest>` ordered by `operator<`, the set being
given by the list of its elements in increasing order.  As `std::set::insert` does, the
element is put before the first element it is less than, and it is not inserted when the
set already holds an element that is unordered with it. -/
def set_insert (x : GroupRequest) : List GroupRequest → List GroupRequest
  | [] => [x]
  | y :: ys =>
    if lt x y then x :: y :: ys
    else if lt y x then y :: set_insert x ys
    else y :: ys

end GroupRequest

/-! ## FieldRequest -/

/-- The struct `FieldRequest`.  The type `FieldIdentifier` is declared in
`field_identifier.hpp`, outside the embedded sources, and is the parameter `FID`. -/
structure FieldRequest (FID : Type) where
  /-- Member `fid`. -/
  fid : FID
  /-- Member `pack_size`. -/
  pack_size : Int
  /-- Member `groups`. -/
  groups : List String

/-- Main constructor `FieldRequest (fid_, groups_, ps)` with its two sanity checks
`ps>=1` and `(ps & (ps-1))==0`, in this order.  `Int.land` is the bitwise and of
two's-complement integers. -/
def FieldRequest.ctor {FID : Type} (fid_ : FID) (groups_ : List String) (ps : Int) :
    Except String (FieldRequest FID) :=
  if ¬ (ps ≥ 1) then
    .error "Error! Pack sizes must be >= 1.\n"
  else if ¬ (Int.land ps (ps - 1) = 0) then
    .error "Error! We only support pack sizes that are (positive) powers of 2.\n"
  else
    .ok ⟨fid_, ps, groups_⟩

/-- The algorithm `std::lexicographical_compare` on two lists of strings, which is the
`operator<` of `std::list<std::string>`: the lists are walked together, the first
position where the elements differ decides, and when one list ends first the result is
whether the left one ended and the right one did not. -/
def lexicographical_compare : List String → List String → Bool
  | [], [] => false
  | [], _ :: _ => true
  | _ :: _, [] => false
  | x :: xs, y :: ys =>
    if x < y then true
    else if y < x then false
    else lexicographical_compare xs ys

/-- The `operator<` of `FieldRequest`, branch by branch as in the source.  The arguments
`fidLt` and `fidEq` are `operator<` and `operator==` of `FieldIdentifier`, which are
declared in `field_identifier.hpp`, outside the embedded sources. -/
def FieldRequest.lt {FID : Type} (fidLt fidEq : FID → FID → Bool)
    (lhs rhs : FieldRequest FID) : Bool :=
  if fidLt lhs.fid rhs.fid then true
  else if fidEq lhs.fid rhs.fid then
    if lhs.pack_size < rhs.pack_size then true
    else if lhs.pack_size = rhs.pack_size then
      lexicographical_compare lhs.groups rhs.groups
    else false
  else false

/-- The assumption on `FieldIdentifier`: `operator==` is equality and `operator<` is a
strict total order. -/
structure StrictTotalFID {FID : Type} (fidLt fidEq : FID → FID → Bool) : Prop where
  /-- The operator `==` decides equality. -/
  eq_iff : ∀ x y, fidEq x y = true ↔ x = y
  /-- The operator `<` is irreflexive. -/
  irrefl : ∀ x, fidLt x x = false
  /-- The operator `<` is transitive. -/
  trans : ∀ x y z, fidLt x y = true → fidLt y z = true → fidLt x z = true
  /-- Two different identifiers are ordered one way or the other. -/
  total : ∀ x y, fidLt x y = true ∨ x = y ∨ fidLt y x = true

/-- The order of the specification on `FieldRequest`: the key `(identifier, pack_size,
groups)` of `a` is lexicographically smaller than that of `b`, identifiers being compared
by the `FieldIdentifier` order, pack sizes as integers and groups lists as sequences of
strings (`<` on `List String` is the lexicographic order, a proper initial segment
coming first). -/
def FieldRequest.specLt {FID : Type} (fidLt : FID → FID → Bool) (a b : FieldRequest FID) :
    Prop :=
  fidLt a.fid b.fid = true ∨
    (a.fid = b.fid ∧
      (a.pack_size < b.pack_size ∨ (a.pack_size = b.pack_size ∧ a.groups < b.groups)))

/-! ## Request registry and resolver

The registry and the resolver of the specification are not part of the embedded sources;
the definitions of this section follow the words of the specification (§4.2, §4.3) and
use the constructors of the source for the validation of the requests. -/

/-- Modelled from the spec: the merge rule of the request registry for two `FieldRequest`s
of one identifier, which the embedded sources do not contain (§4.2): the pack size of the
merged entry is the maximum of the two pack sizes and its groups are the union of the two
groups lists. -/
def mergeFieldRequest {FID : Type} (existing incoming : FieldRequest FID) :
    FieldRequest FID :=
  ⟨existing.fid, max existing.pack_size incoming.pack_size,
    existing.groups ∪ incoming.groups⟩

/-- Modelled from the spec: the operation `submit(FieldRequest)` of the request registry
in its submission phase, which the embedded sources do not contain (§4.2).  The registry
is the list of its entries.  The request is validated at once by the constructor of the
source; when an entry of the same identifier exists the request is merged into it,
otherwise it becomes a new entry. -/
def submitFieldRequest {FID : Type} [DecidableEq FID] (registry : List (FieldRequest FID))
    (fid : FID) (groups : List String) (ps : Int) :
    Except String (List (FieldRequest FID)) :=
  match FieldRequest.ctor fid groups ps with
  | .error msg => .error msg
  | .ok req =>
    if registry.any (fun e => decide (e.fid = fid)) then
      .ok (registry.map fun e => if e.fid = fid then mergeFieldRequest e req else e)
    else
      .ok (registry ++ [req])

/-- Modelled from the spec: the error `ExcludedFieldNotFound` of the resolver, which the
embedded sources do not contain; it names the missing field and the relative group
(§4.3, §7). -/
inductive ResolveError where
  | ExcludedFieldNotFound (field : String) (relative : String)
  deriving DecidableEq, Repr

/-- Modelled from the spec: the resolved field set of a base group, which the embedded
sources do not compute (§4.3 step 2): the names of the fields whose request declares
membership in the group, on the grid of the group.  `fidName` and `fidGrid` read the name
and the grid of a `FieldIdentifier`. -/
def baseFieldSet {FID : Type} (fidName fidGrid : FID → String)
    (fields : List (FieldRequest FID)) (g : GroupRequest) : List String :=
  (fields.filter fun f => decide (g.name ∈ f.groups) && decide (fidGrid f.fid = g.grid)).map
    fun f => fidName f.fid

/-- Modelled from the spec: the resolution of one group request, which the embedded
sources do not contain (§4.3 steps 2 and 3).  A group without relative is a base group.
A derived group is resolved from the field set of its relative, a base group: an alias
takes it verbatim; a child takes it minus the exclude list, every excluded name that is
not in it being reported as `ExcludedFieldNotFound`; a parent relationship does not
change the computation of the field set of the group itself. -/
def resolve {FID : Type} (fidName fidGrid : FID → String) (fields : List (FieldRequest FID))
    (g : GroupRequest) : Except (List ResolveError) (List String) :=
  match g.releative with
  | none => .ok (baseFieldSet fidName fidGrid fields g)
  | some r =>
    match g.relative_type with
    | Relationship.Alias => .ok (baseFieldSet fidName fidGrid fields r)
    | Relationship.Child =>
      if g.exclude.all (fun x => decide (x ∈ baseFieldSet fidName fidGrid fields r)) then
        .ok ((baseFieldSet fidName fidGrid fields r).filter fun x => decide (x ∉ g.exclude))
      else
        .error ((g.exclude.filter fun x =>
            decide (x ∉ baseFieldSet fidName fidGrid fields r)).map
          fun x => ResolveError.ExcludedFieldNotFound x r.name)
    | _ => .ok (baseFieldSet fidName fidGrid fields g)

/-- The field requests of the scenario of §8 of the specification: `qv`, `qc`, `qr` on
`dyn_grid`, each a member of the group `tracers`.  An identifier is the pair of the name
and the grid of the field. -/
def scenarioFields : List (FieldRequest (String × String)) :=
  [⟨("qv", "dyn_grid"), 1, ["tracers"]⟩, ⟨("qc", "dyn_grid"), 1, ["tracers"]⟩,
   ⟨("qr", "dyn_grid"), 1, ["tracers"]⟩]

/-- The base group `tracers` of the scenario of §8. -/
def scenarioTracers : GroupRequest :=
  GroupRequest.mk "tracers" "dyn_grid" 1 none Bundling.Required Relationship.None []

/-- The derived group `tracers_subset` of the scenario of §8: the child of `tracers` that
excludes `qv`. -/
def scenarioSubset : GroupRequest :=
  GroupRequest.mk "tracers_subset" "dyn_grid" 1 (some scenarioTracers) Bundling.Preferred
    Relationship.Child ["qv"]

/-! ## Radiation utilities (`physics/rrtmgp`)

The functions `radiation_do` and `limit_to_bounds` are defined in `rrtmgp_utils.hpp`,
which is not among the embedded sources; their unit tests in
`physics/rrtmgp/tests/rrtmgp_unit_tests.cpp` are. -/

/-- Modelled from the spec: `radiation_do (irad, nstep)`, which is defined in
`rrtmgp_utils.hpp`, outside the embedded sources.  Radiation is done at the step `nstep`
when `nstep` is a multiple of the radiation frequency `irad`, as the `int` test
`nstep % irad == 0`; `Int.tmod` is the remainder of the truncating division of C++. -/
def radiation_do (irad nstep : Int) : Bool :=
  Int.tmod nstep irad == 0

/-- The unit test `TEST_CASE("rrtmgp_test_radiation_do")` of the source, as a function of
the implementation under test: the conjunction of its `REQUIRE` statements. -/
def rrtmgp_test_radiation_do (impl : Int → Int → Bool) : Bool :=
  (impl 1 0 == true) && (impl 1 1 == true) && (impl 1 2 == true) &&
  (impl 2 0 == true) && (impl 2 1 == false) && (impl 2 2 == true) && (impl 2 3 == false) &&
  (impl 3 0 == true) && (impl 3 1 == false) && (impl 3 2 == false) && (impl 3 3 == true) &&
  (impl 3 4 == false) && (impl 3 5 == false) && (impl 3 6 == true)

/-- Element `(i, j)` of a 2-d array given by the list of its rows, with the indices
starting at 1 as in the `real2d` arrays of the source. -/
def elem2d {α : Type} (arr : List (List α)) (i j : Nat) : Option α :=
  (arr[i - 1]?).bind fun row => row[j - 1]?

/-- Modelled from the spec: `limit_to_bounds (arr_in, lower, upper, arr_out)`, which is
defined in `rrtmgp_utils.hpp`, outside the embedded sources.  Every element of `arr_out`
is set to the matching element of `arr_in` limited to the bounds, `min (max x lower)
upper`.  The reals are the elements of a linear order, a 2-d array is the list of its
rows, and the result is the pair of the two arrays after the call; the former content of
`arr_out` is overwritten. -/
def limit_to_bounds {α : Type} [LinearOrder α] (arr_in : List (List α)) (lower upper : α)
    (_arr_out : List (List α)) : List (List α) × List (List α) :=
  (arr_in, arr_in.map fun row => row.map fun x => min (max x lower) upper)

/-- The unit test `TEST_CASE("rrtmgp_test_limit_to_bounds")` of the source, as a property
of the implementation under test: the conjunction of its `REQUIRE` statements, for the
array with elements 1, 2, 3, 4 limited first to the bounds 0 and 5, then to 1.5 and 3.5.
The test leaves the initial content of `arr_limited` unset; it is taken as 0. -/
def rrtmgp_test_limit_to_bounds
    (impl : List (List ℚ) → ℚ → ℚ → List (List ℚ) → List (List ℚ) × List (List ℚ)) : Prop :=
  let arr : List (List ℚ) := [[1, 2], [3, 4]]
  let arr_limited : List (List ℚ) := [[0, 0], [0, 0]]
  let s₁ := impl arr 0 5 arr_limited
  let s₂ := impl s₁.1 (3 / 2) (7 / 2) s₁.2
  elem2d s₁.1 1 1 = elem2d s₁.2 1 1 ∧ elem2d s₁.1 1 2 = elem2d s₁.2 1 2 ∧
  elem2d s₁.1 2 1 = elem2d s₁.2 2 1 ∧ elem2d s₁.1 2 2 = elem2d s₁.2 2 2 ∧
  elem2d s₂.2 1 1 = some (3 / 2) ∧ elem2d s₂.2 1 2 = some 2 ∧
  elem2d s₂.2 2 1 = some 3 ∧ elem2d s₂.2 2 2 = some (7 / 2)

/-! ## P3 size distributions (`physics/p3/p3_functions_dsd2_impl.hpp`)

The scalars are the elements of a linear ordered field `α` with a floor function (exact
arithmetic); the functions `pow`, `tgamma`, `log`, `log10` and `exp` are parameters, and
so are the constants of `p3_constants.hpp`, which is not among the embedded sources.  A
pack of `n` scalars is a function on the lanes `Fin n`, a mask a boolean function on
them. -/

/-- A pack `Spack` of `n` scalars. -/
abbrev Spack (n : Nat) (α : Type) := Fin n → α

/-- A mask `Smask` over the `n` lanes of a pack. -/
abbrev Smask (n : Nat) := Fin n → Bool

/-- The method `any ()` of a mask: some lane is true. -/
def Smask.any {n : Nat} (m : Smask n) : Bool :=
  (List.finRange n).any m

/-- The method `set (mask, v)` of a pack: the lanes where the mask is true take the value
of `v`, the other lanes keep theirs. -/
def Spack.set {n : Nat} {α : Type} (p : Spack n α) (m : Smask n) (v : Spack n α) :
    Spack n α :=
  fun s => if m s then v s else p s

/-- The conversion of a scalar to `int`, which truncates towards zero. -/
def truncToInt {α : Type} [LinearOrderedField α] [FloorRing α] (x : α) : Int :=
  if 0 ≤ x then ⌊x⌋ else ⌈x⌉

/-- The constants read by the two functions: `C::NSMALL`, `C::CONS1`, `C::THIRD`, `C::Pi`,
`C::RHOW`, `C::mu_r_const` and `P3C::iparam`. -/
structure P3Constants (α : Type) where
  /-- The constant `NSMALL`. -/
  NSMALL : α
  /-- The constant `CONS1`. -/
  CONS1 : α
  /-- The constant `THIRD`. -/
  THIRD : α
  /-- The constant `Pi`. -/
  Pi : α
  /-- The constant `RHOW`. -/
  RHOW : α
  /-- The constant `mu_r_const`. -/
  mu_r_const : α
  /-- The constant `iparam`. -/
  iparam : Int

/-- The mathematical functions called by the two functions, left uninterpreted. -/
structure MathFns (α : Type) where
  /-- The function `pow`. -/
  pow : α → α → α
  /-- The function `tgamma`. -/
  tgamma : α → α
  /-- The function `log`. -/
  log : α → α
  /-- The function `log10`. -/
  log10 : α → α
  /-- The function `exp`. -/
  exp : α → α

/-- The arguments of `get_cloud_dsd2` passed by non-const reference, after the call. -/
structure CloudDsd2 (n : Nat) (α : Type) where
  /-- Argument `nc`. -/
  nc : Spack n α
  /-- Argument `mu_c`. -/
  mu_c : Spack n α
  /-- Argument `nu`. -/
  nu : Spack n α
  /-- Argument `lamc`. -/
  lamc : Spack n α
  /-- Argument `cdist`. -/
  cdist : Spack n α
  /-- Argument `cdist1`. -/
  cdist1 : Spack n α

/-- The function `get_cloud_dsd2`, statement by statement as in the source; the arguments
are in the order of the source and the table `dnu` is a function of the index.  Inside
`if (qc_gt_small.any())` the assignments to `nc`, `mu_c`, `nu`, `lamc`, `cdist`, `cdist1`
are made on all the lanes of the pack. -/
def get_cloud_dsd2 {n : Nat} {α : Type} [LinearOrderedField α] [FloorRing α]
    (C : P3Constants α) (F : MathFns α) (qc_gt_small : Smask n) (qc nc mu_c rho nu : Spack n α)
    (dnu : Int → α) (lamc cdist cdist1 lcldm : Spack n α) : CloudDsd2 n α :=
  let r : CloudDsd2 n α :=
    if Smask.any qc_gt_small then
      let nc₁ : Spack n α := fun s => max (nc s) C.NSMALL
      let mu₁ : Spack n α := fun s => 0.0005714 * (nc₁ s * 1e-6 * rho s) + 0.2714
      let mu₂ : Spack n α := fun s => 1 / F.pow (mu₁ s) 2 - 1
      let mu₃ : Spack n α := fun s => max (mu₂ s) 2
      let mu₄ : Spack n α := fun s => min (mu₃ s) 15
      let nu₁ : Spack n α := fun _ => 0
      let nu₂ : Spack n α :=
        if C.iparam = 1 then
          let dumi : Fin n → Int := fun s => truncToInt (mu₄ s) - 1
          let dnu0 : Spack n α := fun s => dnu (dumi s)
          let dnu1 : Spack n α := fun s => dnu (dumi s + 1)
          fun s => dnu0 s + (dnu1 s - dnu0 s) * (mu₄ s - (dumi s : α) - 1)
        else nu₁
      let lamc₁ : Spack n α := fun s =>
        F.pow (C.CONS1 * nc₁ s * (mu₄ s + 3) * (mu₄ s + 2) * (mu₄ s + 1) / qc s) C.THIRD
      let lammin : Spack n α := fun s => (mu₄ s + 1) * 2.5e4
      let lammax : Spack n α := fun s => (mu₄ s + 1) * 1e6
      let lamc_lt_min : Smask n := fun s => decide (lamc₁ s < lammin s)
      let lamc_gt_max : Smask n := fun s => decide (lamc₁ s > lammax s)
      let min_or_max : Smask n := fun s => lamc_lt_min s || lamc_gt_max s
      let lamc₂ : Spack n α := Spack.set lamc₁ lamc_lt_min lammin
      let lamc₃ : Spack n α := Spack.set lamc₂ lamc_gt_max lammax
      let nc₂ : Spack n α := Spack.set nc₁ min_or_max fun s =>
        6 * F.pow (lamc₃ s) 3 * qc s /
          (C.Pi * C.RHOW * (mu₄ s + 3) * (mu₄ s + 2) * (mu₄ s + 1))
      let cdist₁ : Spack n α := fun s => nc₂ s * (mu₄ s + 1) / lamc₃ s
      let cdist1₁ : Spack n α := fun s => nc₂ s * lcldm s / F.tgamma (mu₄ s + 1)
      ⟨nc₂, mu₄, nu₂, lamc₃, cdist₁, cdist1₁⟩
    else
      ⟨nc, mu_c, nu, lamc, cdist, cdist1⟩
  let not_small : Smask n := fun s => !qc_gt_small s
  ⟨r.nc, r.mu_c, r.nu, Spack.set r.lamc not_small fun _ => 0,
    Spack.set r.cdist not_small fun _ => 0, Spack.set r.cdist1 not_small fun _ => 0⟩

/-- The arguments of `get_rain_dsd2` passed by non-const reference, after the call. -/
structure RainDsd2 (n : Nat) (α : Type) where
  /-- Argument `nr`. -/
  nr : Spack n α
  /-- Argument `mu_r`. -/
  mu_r : Spack n α
  /-- Argument `lamr`. -/
  lamr : Spack n α
  /-- Argument `cdistr`. -/
  cdistr : Spack n α
  /-- Argument `logn0r`. -/
  logn0r : Spack n α

/-- The function `get_rain_dsd2`, statement by statement as in the source; the arguments
are in the order of the source.  The table `mu_r_table` is not read, and the incoming
values of `lamr`, `cdistr` and `logn0r` are overwritten by 0 at entry.  The loop
`scream_masked_loop (either, s)` runs over the lanes where `either` is true. -/
def get_rain_dsd2 {n : Nat} {α : Type} [LinearOrderedField α]
    (C : P3Constants α) (F : MathFns α) (_mu_r_table : Int → α) (qr_gt_small : Smask n)
    (qr nr mu_r _lamr _cdistr _logn0r rcldm : Spack n α) : RainDsd2 n α :=
  let nsmall := C.NSMALL
  let thrd := C.THIRD
  let cons1 := C.CONS1
  let lamr₀ : Spack n α := fun _ => 0
  let cdistr₀ : Spack n α := fun _ => 0
  let logn0r₀ : Spack n α := fun _ => 0
  if Smask.any qr_gt_small then
    let nr_lim : Spack n α := fun s => max (nr s) nsmall
    let _inv_dum : Spack n α := Spack.set (fun _ => 0) qr_gt_small fun s =>
      F.pow (qr s / (cons1 * nr_lim s * 6.0)) thrd
    let mu_r₁ : Spack n α := Spack.set mu_r qr_gt_small fun _ => C.mu_r_const
    let lamr₁ : Spack n α := Spack.set lamr₀ qr_gt_small fun s =>
      F.pow (cons1 * nr_lim s * (mu_r₁ s + 3) * (mu_r₁ s + 2) * (mu_r₁ s + 1) / qr s) thrd
    let lammax : Spack n α := fun s => (mu_r₁ s + 1) * 1e5
    let lammin : Spack n α := fun s => (mu_r₁ s + 1) * 1250.0
    let lt : Smask n := fun s => qr_gt_small s && decide (lamr₁ s < lammin s)
    let gt : Smask n := fun s => qr_gt_small s && decide (lamr₁ s > lammax s)
    let either : Smask n := fun s => lt s || gt s
    let nr₁ : Spack n α := Spack.set nr qr_gt_small nr_lim
    let lamr₂ : Spack n α :=
      if Smask.any either then Spack.set (Spack.set lamr₁ lt lammin) gt lammax else lamr₁
    let nr₂ : Spack n α :=
      if Smask.any either then
        Spack.set nr₁ either fun s =>
          F.exp (3 * F.log (lamr₂ s) + F.log (qr s) + F.log (F.tgamma (mu_r₁ s + 1)) -
            F.log (F.tgamma (mu_r₁ s + 4))) / cons1
      else nr₁
    let cdistr₁ : Spack n α := Spack.set cdistr₀ qr_gt_small fun s =>
      nr₂ s * rcldm s / F.tgamma (mu_r₁ s + 1)
    let logn0r₁ : Spack n α := Spack.set logn0r₀ qr_gt_small fun s =>
      F.log10 (nr₂ s) + (mu_r₁ s + 1) * F.log10 (lamr₂ s) - F.log10 (F.tgamma (mu_r₁ s + 1))
    ⟨nr₂, mu_r₁, lamr₂, cdistr₁, logn0r₁⟩
  else
    ⟨nr, mu_r, lamr₀, cdistr₀, logn0r₀⟩

/-! ## Auxiliary lemmas -/

namespace GroupRequest

/-- On two requests without relatives `lt` compares name, grid and pack size only. -/
theorem lt_leaf (ln lg : String) (lp : Int) (lb : Bundling) (lty : Relationship) (le : List String)
    (rn rg : String) (rp : Int) (rb : Bundling) (rty : Relationship) (re : List String) :
    lt (mk ln lg lp none lb lty le) (mk rn rg rp none rb rty re) = true ↔
      ln < rn ∨ ln = rn ∧ (lg < rg ∨ lg = rg ∧ lp < rp) := by
  rw [lt]
  by_cases h1 : ln < rn
  · simp [h1]
  · by_cases h2 : ln = rn
    · by_cases h3 : lg < rg
      · simp [h1, h2, h3]
      · by_cases h4 : lg = rg
        · by_cases h5 : lp < rp
          · simp [h2, h4, h5]
          · by_cases h6 : lp = rp
            · simp [h2, h4, h6]
            · simp [h1, h2, h3, h4, h5, h6]
        · simp [h1, h2, h3, h4]
    · simp [h1, h2]

/-- The order of `key`, unfolded. -/
theorem key_lt_iff (a b : GroupRequest) :
    key a < key b ↔
      a.name < b.name ∨ a.name = b.name ∧ (a.grid < b.grid ∨ a.grid = b.grid ∧
        (a.pack_size < b.pack_size ∨ a.pack_size = b.pack_size ∧
          (match a.releative, b.releative with
            | none, none => False
            | none, some _ => True
            | some _, none => False
            | some l, some r =>
              l.name < r.name ∨ l.name = r.name ∧ (l.grid < r.grid ∨ l.grid = r.grid ∧
                (l.pack_size < r.pack_size ∨ l.pack_size = r.pack_size ∧
                  (a.bundling.etoi < b.bundling.etoi ∨
                    a.bundling.etoi = b.bundling.etoi ∧
                      a.relative_type.etoi < b.relative_type.etoi)))))) := by
  unfold key
  rw [Prod.Lex.lt_iff]; dsimp only
  rw [Prod.Lex.lt_iff]; dsimp only
  rw [Prod.Lex.lt_iff]; dsimp only
  cases ha : a.releative <;> cases hb : b.releative <;> dsimp only
  · simp
  · simp [WithBot.bot_lt_coe]
  · simp
  · rw [WithBot.coe_lt_coe]
    unfold relKey
    rw [Prod.Lex.lt_iff]; dsimp only
    rw [Prod.Lex.lt_iff]; dsimp only
    rw [Prod.Lex.lt_iff]; dsimp only
    rw [Prod.Lex.lt_iff]

/-- On requests of nesting depth at most 1, `lt` is the strict order of `key`. -/
theorem lt_iff_key (a b : GroupRequest) (ha : NoNested a) (hb : NoNested b) :
    lt a b = true ↔ key a < key b := by
  rw [key_lt_iff]
  obtain ⟨ln, lg, lp, lr, lb, lty, le⟩ := a
  obtain ⟨rn, rg, rp, rr, rb, rty, re⟩ := b
  simp only [name, grid, pack_size, releative, bundling, relative_type]
  cases lr with
  | none =>
    cases rr with
    | none => rw [lt_leaf]; simp
    | some r =>
      rw [lt]
      by_cases h1 : ln < rn
      · simp [h1]
      · by_cases h2 : ln = rn
        · by_cases h3 : lg < rg
          · simp [h1, h2, h3]
          · by_cases h4 : lg = rg
            · by_cases h5 : lp < rp
              · simp [h2, h4, h5]
              · by_cases h6 : lp = rp
                · simp [h2, h4, h6]
                · simp [h1, h2, h3, h4, h5, h6]
            · simp [h1, h2, h3, h4]
        · simp [h1, h2]
  | some l =>
    cases rr with
    | none =>
      rw [lt]
      by_cases h1 : ln < rn
      · simp [h1]
      · by_cases h2 : ln = rn
        · by_cases h3 : lg < rg
          · simp [h1, h2, h3]
          · by_cases h4 : lg = rg
            · by_cases h5 : lp < rp
              · simp [h2, h4, h5]
              · by_cases h6 : lp = rp
                · simp [h2, h4, h6]
                · simp [h1, h2, h3, h4, h5, h6]
            · simp [h1, h2, h3, h4]
        · simp [h1, h2]
    | some r =>
      have hl := ha l rfl
      have hr := hb r rfl
      obtain ⟨n1, g1, p1, r1, b1, t1, e1⟩ := l
      obtain ⟨n2, g2, p2, r2, b2, t2, e2⟩ := r
      simp only [releative] at hl hr
      subst hl hr
      have e12 := lt_leaf n1 g1 p1 b1 t1 e1 n2 g2 p2 b2 t2 e2
      have e21 := lt_leaf n2 g2 p2 b2 t2 e2 n1 g1 p1 b1 t1 e1
      rw [lt]
      simp only [name, grid, pack_size]
      by_cases h1 : ln < rn
      · simp [h1]
      · by_cases h2 : ln = rn
        · by_cases h3 : lg < rg
          · simp [h1, h2, h3]
          · by_cases h4 : lg = rg
            · by_cases h5 : lp < rp
              · simp [h2, h4, h5]
              · by_cases h6 : lp = rp
                · subst h2 h4 h6
                  simp only [lt_irrefl, if_false, if_true, true_and, false_or]
                  rcases lt_trichotomy n1 n2 with h | h | h
                  · have h12 : lt (mk n1 g1 p1 none b1 t1 e1) (mk n2 g2 p2 none b2 t2 e2) = true :=
                      e12.mpr (Or.inl h)
                    simp [h12, h]
                  · subst h
                    rcases lt_trichotomy g1 g2 with h | h | h
                    · have h12 : lt (mk n1 g1 p1 none b1 t1 e1) (mk n1 g2 p2 none b2 t2 e2) = true :=
                        e12.mpr (Or.inr ⟨rfl, Or.inl h⟩)
                      simp [h12, h]
                    · subst h
                      rcases lt_trichotomy p1 p2 with h | h | h
                      · have h12 : lt (mk n1 g1 p1 none b1 t1 e1) (mk n1 g1 p2 none b2 t2 e2) = true :=
                          e12.mpr (Or.inr ⟨rfl, Or.inr ⟨rfl, h⟩⟩)
                        simp [h12, h]
                      · subst h
                        have h12 : lt (mk n1 g1 p1 none b1 t1 e1) (mk n1 g1 p1 none b2 t2 e2) = false := by
                          rw [← Bool.not_eq_true, e12]; simp
                        have h21 : lt (mk n1 g1 p1 none b2 t2 e2) (mk n1 g1 p1 none b1 t1 e1) = false := by
                          rw [← Bool.not_eq_true, e21]; simp
                        simp [h12, h21]
                      · have h12 : lt (mk n1 g1 p1 none b1 t1 e1) (mk n1 g1 p2 none b2 t2 e2) = false := by
                          rw [← Bool.not_eq_true, e12]; simp [h.not_lt]
                        have h21 : lt (mk n1 g1 p2 none b2 t2 e2) (mk n1 g1 p1 none b1 t1 e1) = true :=
                          e21.mpr (Or.inr ⟨rfl, Or.inr ⟨rfl, h⟩⟩)
                        simp [h12, h21, h.not_lt, h.ne']
                    · have h12 : lt (mk n1 g1 p1 none b1 t1 e1) (mk n1 g2 p2 none b2 t2 e2) = false := by
                        rw [← Bool.not_eq_true, e12]; simp [h.not_lt, h.ne']
                      have h21 : lt (mk n1 g2 p2 none b2 t2 e2) (mk n1 g1 p1 none b1 t1 e1) = true :=
                        e21.mpr (Or.inr ⟨rfl, Or.inl h⟩)
                      simp [h12, h21, h.not_lt, h.ne']
                  · have h12 : lt (mk n1 g1 p1 none b1 t1 e1) (mk n2 g2 p2 none b2 t2 e2) = false := by
                      rw [← Bool.not_eq_true, e12]; simp [h.not_lt, h.ne']
                    have h21 : lt (mk n2 g2 p2 none b2 t2 e2) (mk n1 g1 p1 none b1 t1 e1) = true :=
                      e21.mpr (Or.inl h)
                    simp [h12, h21, h.not_lt, h.ne']
                · simp [h1, h2, h3, h4, h5, h6]
            · simp [h1, h2, h3, h4]
        · simp [h1, h2]

/-- A constructed request has nesting depth at most 1. -/
theorem Constructed.noNested {g : GroupRequest} (hg : Constructed g) : NoNested g := by
  obtain ⟨n, gr, ps, b, r, t, excl, u, h⟩ := hg
  intro r0 hr0
  unfold ctor at h
  split at h
  · exact absurd h (by simp)
  · cases r with
    | none =>
      simp only [Except.ok.injEq] at h
      subst h
      simp [releative] at hr0
    | some r' =>
      simp only at h
      split at h
      · exact absurd h (by simp)
      · split at h
        · exact absurd h (by simp)
        · split at h
          · exact absurd h (by simp)
          · rename_i hnone
            simp only [Except.ok.injEq] at h
            subst h
            simp only [releative, Option.some.injEq] at hr0
            subst hr0
            simpa using hnone

/-- Transitivity of `lt` at nesting depth at most 1. -/
theorem lt_trans_noNested {a b c : GroupRequest} (ha : NoNested a) (hb : NoNested b)
    (hc : NoNested c) (hab : lt a b = true) (hbc : lt b c = true) : lt a c = true :=
  (lt_iff_key a c ha hc).mpr
    (lt_trans ((lt_iff_key a b ha hb).mp hab) ((lt_iff_key b c hb hc).mp hbc))

/-- Asymmetry of `lt` at nesting depth at most 1. -/
theorem lt_asymm_noNested {a b : GroupRequest} (ha : NoNested a) (hb : NoNested b)
    (hab : lt a b = true) : lt b a = false := by
  rw [← Bool.not_eq_true, lt_iff_key b a hb ha]
  exact lt_asymm ((lt_iff_key a b ha hb).mp hab)

/-- Irreflexivity of `lt` at nesting depth at most 1. -/
theorem lt_irrefl_noNested {a : GroupRequest} (ha : NoNested a) : lt a a = false := by
  rw [← Bool.not_eq_true, lt_iff_key a a ha ha]
  exact lt_irrefl _

/-- Two requests of nesting depth at most 1 are unordered exactly when their keys agree. -/
theorem unordered_iff_key_eq {a b : GroupRequest} (ha : NoNested a) (hb : NoNested b) :
    Unordered a b ↔ key a = key b := by
  unfold Unordered
  rw [← Bool.not_eq_true, ← Bool.not_eq_true, lt_iff_key a b ha hb, lt_iff_key b a hb ha]
  constructor
  · rintro ⟨h1, h2⟩
    exact le_antisymm (not_lt.mp h2) (not_lt.mp h1)
  · intro h
    rw [h]
    exact ⟨lt_irrefl _, lt_irrefl _⟩


/-! ## Claims on the order of `GroupRequest` -/

/-- C1 (evaluation of the code where the claim fails).  The two requests
`GroupRequest("tracers","dyn_grid",Bundling::Required)` and
`GroupRequest("tracers","dyn_grid",Bundling::Preferred)` are both constructed, neither is
less than the other, and yet their bundling differs: `operator<` does not order every pair
of requests that differ in a field. -/
theorem lt_unordered_with_distinct_bundling (u₁ u₂ : Relationship) :
    ∃ a b : GroupRequest,
      ctorBundling "tracers" "dyn_grid" Bundling.Required u₁ = .ok a ∧
      ctorBundling "tracers" "dyn_grid" Bundling.Preferred u₂ = .ok b ∧
      lt a b = false ∧ lt b a = false ∧ a.bundling ≠ b.bundling :=
  ⟨mk "tracers" "dyn_grid" 1 none Bundling.Required u₁ [],
   mk "tracers" "dyn_grid" 1 none Bundling.Preferred u₂ [],
   by simp [ctorBundling, ctorPackSize, ctor],
   by simp [ctorBundling, ctorPackSize, ctor],
   by simp [lt], by simp [lt], by simp [bundling]⟩

/-- C2 (evaluation of the code where the claim fails).  For the constructed requests
`a = GroupRequest("tracers","dyn_grid",1,Bundling::Required)` and
`b = GroupRequest("tracers","dyn_grid",1,Bundling::NotNeeded)` the key of the
specification of `a` is smaller than that of `b` (equal name, grid, pack size, both
relatives absent, bundling 0 < 2), but `a < b` is false in the code. -/
theorem lt_disagrees_with_specKey (u : Relationship) :
    ∃ a b : GroupRequest,
      ctorPackSize "tracers" "dyn_grid" 1 Bundling.Required u = .ok a ∧
      ctorPackSize "tracers" "dyn_grid" 1 Bundling.NotNeeded u = .ok b ∧
      specKey a < specKey b ∧ lt a b = false := by
  refine ⟨mk "tracers" "dyn_grid" 1 none Bundling.Required u [],
    mk "tracers" "dyn_grid" 1 none Bundling.NotNeeded u [],
    by simp [ctorPackSize, ctor], by simp [ctorPackSize, ctor], ?_, by simp [lt]⟩
  simp [specKey, Prod.Lex.lt_iff, name, grid, pack_size, releative, bundling,
    Bundling.etoi]

/-- C3.  The order of `GroupRequest` is transitive on successfully constructed requests
(with or without relatives): if `a < b` and `b < c` then `a < c`. -/
theorem lt_trans_of_constructed (a b c : GroupRequest) (ha : Constructed a)
    (hb : Constructed b) (hc : Constructed c) (hab : lt a b = true) (hbc : lt b c = true) :
    lt a c = true :=
  lt_trans_noNested ha.noNested hb.noNested hc.noNested hab hbc

/-- Witness of C3: a request without relative, an alias of `tracers` and a child of
`tracers` excluding `qv`, all named `sub` on `dyn_grid` with pack size 1. -/
theorem lt_trans_of_constructed_witness :
    lt (mk "sub" "dyn_grid" 1 none Bundling.Preferred Relationship.None [])
      (mk "sub" "dyn_grid" 1
        (some (mk "tracers" "dyn_grid" 1 none Bundling.Required Relationship.None []))
        Bundling.Preferred Relationship.Child ["qv"]) = true :=
  lt_trans_of_constructed
    (mk "sub" "dyn_grid" 1 none Bundling.Preferred Relationship.None [])
    (mk "sub" "dyn_grid" 1
      (some (mk "tracers" "dyn_grid" 1 none Bundling.Required Relationship.None []))
      Bundling.Preferred Relationship.Alias [])
    (mk "sub" "dyn_grid" 1
      (some (mk "tracers" "dyn_grid" 1 none Bundling.Required Relationship.None []))
      Bundling.Preferred Relationship.Child ["qv"])
    ⟨"sub", "dyn_grid", 1, Bundling.Preferred, none, Relationship.None, [],
      Relationship.None, by simp [ctor]⟩
    ⟨"sub", "dyn_grid", 1, Bundling.Preferred,
      some (mk "tracers" "dyn_grid" 1 none Bundling.Required Relationship.None []),
      Relationship.Alias, [], Relationship.None, by simp [ctor, releative]⟩
    ⟨"sub", "dyn_grid", 1, Bundling.Preferred,
      some (mk "tracers" "dyn_grid" 1 none Bundling.Required Relationship.None []),
      Relationship.Child, ["qv"], Relationship.None, by simp [ctor, releative]⟩
    (by simp [lt])
    (by simp [lt, Bundling.etoi, Relationship.etoi])

/-- C4.  The order of `GroupRequest` is irreflexive and antisymmetric on successfully
constructed requests: `a < a` never holds, and `a < b` and `b < a` never both hold. -/
theorem lt_irrefl_and_asymm_of_constructed (a b : GroupRequest) (ha : Constructed a)
    (hb : Constructed b) :
    lt a a = false ∧ ¬ (lt a b = true ∧ lt b a = true) := by
  refine ⟨lt_irrefl_noNested ha.noNested, ?_⟩
  rintro ⟨hab, hba⟩
  have h := lt_asymm_noNested ha.noNested hb.noNested hab
  rw [hba] at h
  exact Bool.noConfusion h

/-- Witness of C4: an alias and a child of the same relative. -/
theorem lt_irrefl_and_asymm_of_constructed_witness :
    lt (mk "sub" "dyn_grid" 1
        (some (mk "tracers" "dyn_grid" 1 none Bundling.Required Relationship.None []))
        Bundling.Preferred Relationship.Alias []) 
      (mk "sub" "dyn_grid" 1
        (some (mk "tracers" "dyn_grid" 1 none Bundling.Required Relationship.None []))
        Bundling.Preferred Relationship.Alias []) = false ∧
    ¬ (lt (mk "sub" "dyn_grid" 1
        (some (mk "tracers" "dyn_grid" 1 none Bundling.Required Relationship.None []))
        Bundling.Preferred Relationship.Alias [])
       (mk "sub" "dyn_grid" 1
        (some (mk "tracers" "dyn_grid" 1 none Bundling.Required Relationship.None []))
        Bundling.Preferred Relationship.Child ["qv"]) = true ∧
      lt (mk "sub" "dyn_grid" 1
        (some (mk "tracers" "dyn_grid" 1 none Bundling.Required Relationship.None []))
        Bundling.Preferred Relationship.Child ["qv"])
       (mk "sub" "dyn_grid" 1
        (some (mk "tracers" "dyn_grid" 1 none Bundling.Required Relationship.None []))
        Bundling.Preferred Relationship.Alias []) = true) :=
  lt_irrefl_and_asymm_of_constructed _ _
    ⟨"sub", "dyn_grid", 1, Bundling.Preferred,
      some (mk "tracers" "dyn_grid" 1 none Bundling.Required Relationship.None []),
      Relationship.Alias, [], Relationship.None, by simp [ctor, releative]⟩
    ⟨"sub", "dyn_grid", 1, Bundling.Preferred,
      some (mk "tracers" "dyn_grid" 1 none Bundling.Required Relationship.None []),
      Relationship.Child, ["qv"], Relationship.None, by simp [ctor, releative]⟩

/-- C5.  On successfully constructed requests `operator<` is a strict weak ordering: it is
irreflexive, transitive, and being unordered (neither `a < b` nor `b < a`) is transitive. -/
theorem lt_strict_weak_of_constructed (a b c : GroupRequest) (ha : Constructed a)
    (hb : Constructed b) (hc : Constructed c) :
    lt a a = false ∧
    (lt a b = true → lt b c = true → lt a c = true) ∧
    (Unordered a b → Unordered b c → Unordered a c) := by
  refine ⟨lt_irrefl_noNested ha.noNested,
    lt_trans_noNested ha.noNested hb.noNested hc.noNested, ?_⟩
  intro hab hbc
  rw [unordered_iff_key_eq ha.noNested hb.noNested] at hab
  rw [unordered_iff_key_eq hb.noNested hc.noNested] at hbc
  rw [unordered_iff_key_eq ha.noNested hc.noNested]
  exact hab.trans hbc

/-- Witness of C5: three requests `tracers` on `dyn_grid` with pack size 1 and no relative,
of bundling `Required`, `Preferred` and `NotNeeded`; they are pairwise unordered. -/
theorem lt_strict_weak_of_constructed_witness :
    Unordered (mk "tracers" "dyn_grid" 1 none Bundling.Required Relationship.None [])
      (mk "tracers" "dyn_grid" 1 none Bundling.NotNeeded Relationship.None []) :=
  (lt_strict_weak_of_constructed
    (mk "tracers" "dyn_grid" 1 none Bundling.Required Relationship.None [])
    (mk "tracers" "dyn_grid" 1 none Bundling.Preferred Relationship.None [])
    (mk "tracers" "dyn_grid" 1 none Bundling.NotNeeded Relationship.None [])
    ⟨"tracers", "dyn_grid", 1, Bundling.Required, none, Relationship.None, [],
      Relationship.None, by simp [ctor]⟩
    ⟨"tracers", "dyn_grid", 1, Bundling.Preferred, none, Relationship.None, [],
      Relationship.None, by simp [ctor]⟩
    ⟨"tracers", "dyn_grid", 1, Bundling.NotNeeded, none, Relationship.None, [],
      Relationship.None, by simp [ctor]⟩).2.2
    (by simp [Unordered, lt])
    (by simp [Unordered, lt])

end GroupRequest

/-- The bit test of the `FieldRequest` constructor on naturals: for `n ≥ 1`,
`n & (n-1)` is zero exactly when `n` is a power of two. -/
theorem nat_land_pred_eq_zero_iff (n : Nat) (hn : 1 ≤ n) :
    n &&& (n - 1) = 0 ↔ ∃ k : Nat, n = 2 ^ k := by
  constructor
  · induction n using Nat.strong_induction_on with
    | _ n ih =>
      intro h
      have hdiv : n / 2 &&& (n - 1) / 2 = 0 := by
        rw [← Nat.and_div_two, h]
      rcases Nat.even_or_odd' n with ⟨m, rfl | rfl⟩
      · have hm : 1 ≤ m := by omega
        have e1 : 2 * m / 2 = m := by omega
        have e2 : (2 * m - 1) / 2 = m - 1 := by omega
        rw [e1, e2] at hdiv
        obtain ⟨k, hk⟩ := ih m (by omega) hm hdiv
        exact ⟨k + 1, by rw [hk, pow_succ]; ring⟩
      · have e1 : (2 * m + 1) / 2 = m := by omega
        have e2 : (2 * m + 1 - 1) / 2 = m := by omega
        rw [e1, e2, Nat.and_self] at hdiv
        exact ⟨0, by omega⟩
  · rintro ⟨k, rfl⟩
    rw [Nat.and_pow_two_sub_one_eq_mod, Nat.mod_self]

/-- The two sanity checks of the `FieldRequest` constructor together hold exactly for the
positive powers of two. -/
theorem int_checks_iff_pow_two (ps : Int) :
    (ps ≥ 1 ∧ Int.land ps (ps - 1) = 0) ↔ ∃ k : Nat, ps = 2 ^ k := by
  constructor
  · rintro ⟨h1, h2⟩
    obtain ⟨n, rfl⟩ := Int.eq_ofNat_of_zero_le (by omega : (0 : Int) ≤ ps)
    have hn : 1 ≤ n := by exact_mod_cast h1
    have e : ((n : Int) - 1) = ((n - 1 : Nat) : Int) := by omega
    rw [e] at h2
    have h3 : ((n &&& (n - 1) : Nat) : Int) = 0 := h2
    have h4 : n &&& (n - 1) = 0 := by exact_mod_cast h3
    obtain ⟨k, hk⟩ := (nat_land_pred_eq_zero_iff n hn).mp h4
    exact ⟨k, by rw [hk]; push_cast; rfl⟩
  · rintro ⟨k, rfl⟩
    have hpos : 1 ≤ 2 ^ k := Nat.one_le_two_pow
    refine ⟨by exact_mod_cast hpos, ?_⟩
    have e : ((2 : Int) ^ k - 1) = ((2 ^ k - 1 : Nat) : Int) := by
      rw [Nat.cast_sub hpos]; push_cast; rfl
    have e' : ((2 : Int) ^ k) = ((2 ^ k : Nat) : Int) := by push_cast; rfl
    rw [e, e']
    show ((2 ^ k &&& (2 ^ k - 1) : Nat) : Int) = 0
    rw [(nat_land_pred_eq_zero_iff (2 ^ k) hpos).mpr ⟨k, rfl⟩]
    rfl

/-! ## Claims on the constructors -/

/-- C7.  For every field identifier, groups list and integer `ps` (in particular every
32-bit one), the `FieldRequest` constructor succeeds, returning the request with the
given members, exactly when `ps = 2^k` for some `k ≥ 0`, and raises an error for every
other `ps`. -/
theorem FieldRequest.ctor_ok_iff_pow_two {FID : Type} (fid : FID) (groups : List String)
    (ps : Int) :
    (FieldRequest.ctor fid groups ps = .ok ⟨fid, ps, groups⟩ ↔ ∃ k : Nat, ps = 2 ^ k) ∧
    ((¬ ∃ k : Nat, ps = 2 ^ k) → ∃ msg, FieldRequest.ctor fid groups ps = .error msg) := by
  have key := int_checks_iff_pow_two ps
  unfold FieldRequest.ctor
  by_cases h1 : ps ≥ 1
  · by_cases h2 : Int.land ps (ps - 1) = 0
    · have hk : ∃ k : Nat, ps = 2 ^ k := key.mp ⟨h1, h2⟩
      simp [h1, h2, hk]
    · have hk : ¬ ∃ k : Nat, ps = 2 ^ k := fun h => h2 (key.mpr h).2
      rw [if_neg (not_not.mpr h1), if_pos h2]
      exact ⟨⟨fun h => (by cases h), fun h => absurd h hk⟩, fun _ => ⟨_, rfl⟩⟩
  · have hk : ¬ ∃ k : Nat, ps = 2 ^ k := fun h => h1 (key.mpr h).1
    rw [if_pos h1]
    exact ⟨⟨fun h => (by cases h), fun h => absurd h hk⟩, fun _ => ⟨_, rfl⟩⟩

/-- Witness of C7: pack size 3 is rejected. -/
theorem FieldRequest.ctor_ok_iff_pow_two_witness :
    ∃ msg, FieldRequest.ctor "qv" ["tracers"] 3 = .error msg :=
  (FieldRequest.ctor_ok_iff_pow_two "qv" ["tracers"] 3).2 (by
    rintro ⟨k, hk⟩
    have h := (int_checks_iff_pow_two 3).mpr ⟨k, hk⟩
    exact absurd h.2 (by decide))

namespace GroupRequest

/-- C6 (evaluation of the code where the claim fails).  The pack size 3 is not a power of
two, and the main constructor called with pack size 3 and no relative succeeds, for every
name, grid, bundling, relationship and exclude list: it only checks `pack_size>=1`. -/
theorem ctor_accepts_pack_size_three (name_ grid_ : String) (b : Bundling)
    (t : Relationship) (excl : List String) (uninit : Relationship) :
    (¬ ∃ k : Nat, (3 : Int) = 2 ^ k) ∧
    ctor name_ grid_ 3 b none t excl uninit = .ok (mk name_ grid_ 3 none b uninit []) := by
  refine ⟨?_, by simp [ctor]⟩
  rintro ⟨k, hk⟩
  have h := (int_checks_iff_pow_two 3).mpr ⟨k, hk⟩
  exact absurd h.2 (by decide)

/-- C8 (counterexample).  The main constructor called with no relative and relationship
`Alias` does not fail: it returns a request. -/
theorem ctor_null_relative_alias_succeeds :
    ctor "tracers" "dyn_grid" 1 Bundling.NotNeeded none Relationship.Alias []
        Relationship.None
      = .ok (mk "tracers" "dyn_grid" 1 none Bundling.NotNeeded Relationship.None []) ∧
    ¬ ∃ msg, ctor "tracers" "dyn_grid" 1 Bundling.NotNeeded none Relationship.Alias []
        Relationship.None = .error msg := by
  simp [ctor]

/-- C8 (amended).  With no relative the main constructor does not check the relationship
argument: for every name, grid, bundling, relationship, exclude list and every pack size
`≥ 1` it succeeds, and the request has the given name, grid, pack size and bundling, no
relative and an empty exclude list.  The relationship is validated only when a relative
is given, where it must not be `None`: with a relative, the constructor fails with the
message of the relationship check exactly when the relationship is `None`. -/
theorem ctor_null_relative_ok (name_ grid_ : String) (ps : Int) (b : Bundling)
    (t : Relationship) (excl : List String) (uninit : Relationship) (hps : ps ≥ 1) :
    (∃ g, ctor name_ grid_ ps b none t excl uninit = .ok g ∧
      g.name = name_ ∧ g.grid = grid_ ∧ g.pack_size = ps ∧ g.bundling = b ∧
      g.releative = none ∧ g.exclude = []) ∧
    (∀ r : GroupRequest,
      ctor name_ grid_ ps b (some r) t excl uninit =
          .error "Error! RelativType cannot be None if the relative pointer is not null.\n" ↔
        t = Relationship.None) := by
  refine ⟨⟨mk name_ grid_ ps none b uninit [], by simp [ctor, hps],
    rfl, rfl, rfl, rfl, rfl, rfl⟩, fun r => ?_⟩
  by_cases ht : t = Relationship.None
  · simp [ctor, hps, ht]
  · simp only [ht, iff_false]
    unfold ctor
    rw [if_neg (not_not.mpr hps)]
    simp only
    rw [if_neg (not_not.mpr ht)]
    split
    · simp
    · split
      · simp
      · simp

/-- Witness of C8 (amended): relationship `Parent`, pack size 4; without relative the
construction succeeds, and with a relative it does not fail the relationship check. -/
theorem ctor_null_relative_ok_witness :
    (∃ g, ctor "tracers" "dyn_grid" 4 Bundling.Required none Relationship.Parent ["qv"]
        Relationship.None = .ok g ∧
      g.name = "tracers" ∧ g.grid = "dyn_grid" ∧ g.pack_size = 4 ∧
      g.bundling = Bundling.Required ∧ g.releative = none ∧ g.exclude = []) ∧
    (∀ r : GroupRequest,
      ctor "tracers" "dyn_grid" 4 Bundling.Required (some r) Relationship.Parent ["qv"]
          Relationship.None =
          .error "Error! RelativType cannot be None if the relative pointer is not null.\n" ↔
        Relationship.Parent = Relationship.None) :=
  ctor_null_relative_ok "tracers" "dyn_grid" 4 Bundling.Required Relationship.Parent ["qv"]
    Relationship.None (by decide)

/-- C9 (counterexample).  The main constructor called with the non-empty exclude list
`["qv"]`, relationship `Alias` and no relative does not fail: it returns a request, whose
exclude list is empty. -/
theorem ctor_null_relative_exclude_succeeds :
    ctor "sub" "dyn_grid" 1 Bundling.Preferred none Relationship.Alias ["qv"]
        Relationship.None
      = .ok (mk "sub" "dyn_grid" 1 none Bundling.Preferred Relationship.None []) ∧
    ¬ ∃ msg, ctor "sub" "dyn_grid" 1 Bundling.Preferred none Relationship.Alias ["qv"]
        Relationship.None = .error msg := by
  simp [ctor]

/-- C9 (amended).  With a valid pack size, a non-empty exclude list and a relationship
other than `Child`: when a relative is given the main constructor fails, with the message
of the relationship check for `None` and with the message of the exclude check for `Alias`
and `Parent`; when no relative is given the exclude list is not looked at and the
constructor succeeds with an empty exclude list. -/
theorem ctor_exclude_not_child (name_ grid_ : String) (ps : Int) (b : Bundling)
    (t : Relationship) (excl : List String) (uninit : Relationship) (hps : ps ≥ 1)
    (hex : excl ≠ []) (ht : t ≠ Relationship.Child) :
    (∀ r : GroupRequest, ctor name_ grid_ ps b (some r) t excl uninit =
      .error (if t = Relationship.None then
          "Error! RelativType cannot be None if the relative pointer is not null.\n"
        else
          "Error! You can only exclude fields from a releative group if creating a Subset child group.\n")) ∧
    (∃ g, ctor name_ grid_ ps b none t excl uninit = .ok g ∧
      g.releative = none ∧ g.exclude = []) := by
  refine ⟨fun r => ?_, ⟨mk name_ grid_ ps none b uninit [], by simp [ctor, hps], rfl, rfl⟩⟩
  by_cases h0 : t = Relationship.None
  · simp [ctor, hps, h0]
  · simp [ctor, hps, h0, ht, hex]

/-- Witness of C9 (amended): an alias of `tracers` that excludes `qv`. -/
theorem ctor_exclude_not_child_witness :
    (∀ r : GroupRequest,
      ctor "sub" "dyn_grid" 1 Bundling.Preferred (some r) Relationship.Alias ["qv"]
        Relationship.None =
      .error (if Relationship.Alias = Relationship.None then
          "Error! RelativType cannot be None if the relative pointer is not null.\n"
        else
          "Error! You can only exclude fields from a releative group if creating a Subset child group.\n")) ∧
    (∃ g, ctor "sub" "dyn_grid" 1 Bundling.Preferred none Relationship.Alias ["qv"]
        Relationship.None = .ok g ∧ g.releative = none ∧ g.exclude = []) :=
  ctor_exclude_not_child "sub" "dyn_grid" 1 Bundling.Preferred Relationship.Alias ["qv"]
    Relationship.None (by decide) (by simp) (by decide)

/-- C10.  The main constructor fails whenever the given relative has a relative itself,
whatever the other arguments (with the message of the nesting check when the earlier
checks pass); hence a successfully constructed request has nesting depth at most 1: if
its relative is present, the relative of that relative is absent. -/
theorem ctor_nested_relative_fails (name_ grid_ : String) (ps : Int) (b : Bundling)
    (r : GroupRequest) (t : Relationship) (excl : List String) (uninit : Relationship)
    (g r' : GroupRequest) :
    (r.releative ≠ none →
      (∃ msg, ctor name_ grid_ ps b (some r) t excl uninit = .error msg) ∧
      (ps ≥ 1 → t ≠ Relationship.None → (excl = [] ∨ t = Relationship.Child) →
        ctor name_ grid_ ps b (some r) t excl uninit =
          .error "Error! We cannot handle multiple levels of nested groups.\n")) ∧
    (Constructed g → g.releative = some r' → r'.releative = none) := by
  refine ⟨fun hr => ?_, fun hg hrel => hg.noNested r' hrel⟩
  have hnone : ¬ (r.releative.isNone = true) := by
    cases h : r.releative with
    | none => exact absurd h hr
    | some x => simp
  constructor
  · unfold ctor
    split
    · exact ⟨_, rfl⟩
    · simp only
      split
      · exact ⟨_, rfl⟩
      · split
        · exact ⟨_, rfl⟩
        · exact ⟨_, rfl⟩
  · intro hps ht hex
    have hex' : excl.length = 0 ∨ t = Relationship.Child :=
      hex.imp (fun h => by rw [h]; rfl) id
    unfold ctor
    rw [if_neg (not_not.mpr hps)]
    simp only
    rw [if_neg (not_not.mpr ht), if_neg (not_not.mpr hex'), if_pos hnone]

/-- Witness of C10: a child of an alias is rejected, and the relative of the constructed
alias `sub` of `tracers` has no relative. -/
theorem ctor_nested_relative_fails_witness :
    ((∃ msg, ctor "subsub" "dyn_grid" 1 Bundling.Preferred
        (some (mk "sub" "dyn_grid" 1
          (some (mk "tracers" "dyn_grid" 1 none Bundling.Required Relationship.None []))
          Bundling.Preferred Relationship.Alias []))
        Relationship.Child ["qv"] Relationship.None = .error msg) ∧
      (((1 : Int) ≥ 1) → Relationship.Child ≠ Relationship.None →
        (["qv"] = [] ∨ Relationship.Child = Relationship.Child) →
        ctor "subsub" "dyn_grid" 1 Bundling.Preferred
          (some (mk "sub" "dyn_grid" 1
            (some (mk "tracers" "dyn_grid" 1 none Bundling.Required Relationship.None []))
            Bundling.Preferred Relationship.Alias []))
          Relationship.Child ["qv"] Relationship.None =
          .error "Error! We cannot handle multiple levels of nested groups.\n")) ∧
    (mk "tracers" "dyn_grid" 1 none Bundling.Required Relationship.None []).releative
      = none :=
  have h := ctor_nested_relative_fails "subsub" "dyn_grid" 1 Bundling.Preferred
    (mk "sub" "dyn_grid" 1
      (some (mk "tracers" "dyn_grid" 1 none Bundling.Required Relationship.None []))
      Bundling.Preferred Relationship.Alias [])
    Relationship.Child ["qv"] Relationship.None
    (mk "sub" "dyn_grid" 1
      (some (mk "tracers" "dyn_grid" 1 none Bundling.Required Relationship.None []))
      Bundling.Preferred Relationship.Alias [])
    (mk "tracers" "dyn_grid" 1 none Bundling.Required Relationship.None [])
  ⟨h.1 (by simp [releative]),
   h.2 ⟨"sub", "dyn_grid", 1, Bundling.Preferred,
      some (mk "tracers" "dyn_grid" 1 none Bundling.Required Relationship.None []),
      Relationship.Alias, [], Relationship.None, by simp [ctor, releative]⟩ rfl⟩


/-- What the main constructor returns when it succeeds: either no relative was given and
the request has no relative, the indeterminate relationship and an empty exclude list, or
a relative without relative of its own was given with a relationship other than `None`
and an exclude list that is empty unless the relationship is `Child`. -/
theorem ctor_ok_cases {name_ grid_ : String} {ps : Int} {b : Bundling}
    {r : Option GroupRequest} {t : Relationship} {excl : List String}
    {uninit : Relationship} {g : GroupRequest}
    (h : ctor name_ grid_ ps b r t excl uninit = .ok g) :
    ps ≥ 1 ∧
    ((r = none ∧ g = mk name_ grid_ ps none b uninit []) ∨
     (∃ r', r = some r' ∧ t ≠ Relationship.None ∧ (excl = [] ∨ t = Relationship.Child) ∧
        r'.releative = none ∧ g = mk name_ grid_ ps (some r') b t excl)) := by
  unfold ctor at h
  split at h
  · exact absurd h (by simp)
  · rename_i hps
    refine ⟨not_not.mp hps, ?_⟩
    cases r with
    | none =>
      simp only [Except.ok.injEq] at h
      exact Or.inl ⟨rfl, h.symm⟩
    | some r' =>
      simp only at h
      split at h
      · exact absurd h (by simp)
      · rename_i ht
        split at h
        · exact absurd h (by simp)
        · rename_i hex
          split at h
          · exact absurd h (by simp)
          · rename_i hnone
            simp only [Except.ok.injEq] at h
            refine Or.inr ⟨r', rfl, not_not.mp ht, ?_, ?_, h.symm⟩
            · exact (not_not.mp hex).imp (fun hl => List.length_eq_zero.mp hl) id
            · simpa using hnone

/-- C11 (evaluation of the code where the claim fails).  The request
`GroupRequest("tracers","dyn_grid",Bundling::Required)` is constructed for every
indeterminate value `u` of the member `relative_type`; it has no relative, and its
relationship reads `u`, which need not be `None`. -/
theorem ctor_null_relative_relationship_indeterminate (u : Relationship) :
    ∃ g, ctorBundling "tracers" "dyn_grid" Bundling.Required u = .ok g ∧
      g.releative = none ∧ g.relative_type = u :=
  ⟨mk "tracers" "dyn_grid" 1 none Bundling.Required u [],
    by simp [ctorBundling, ctorPackSize, ctor], rfl, rfl⟩

/-- C12.  In a successfully constructed request a non-empty stored exclude list implies
that the relationship is `Child` and that the relative is present. -/
theorem exclude_nonempty_of_constructed (g : GroupRequest) (hg : Constructed g)
    (hex : g.exclude ≠ []) :
    g.relative_type = Relationship.Child ∧ g.releative.isSome = true := by
  obtain ⟨n, gr, ps, b, r, t, excl, u, h⟩ := hg
  obtain ⟨_, ⟨_, rfl⟩ | ⟨r', _, _, hchild, _, rfl⟩⟩ := ctor_ok_cases h
  · exact absurd rfl hex
  · refine ⟨?_, rfl⟩
    rcases hchild with h0 | h0
    · exact absurd h0 hex
    · exact h0

/-- Witness of C12: the child `tracers_subset` of `tracers` that excludes `qv`. -/
theorem exclude_nonempty_of_constructed_witness :
    (mk "tracers_subset" "dyn_grid" 1
      (some (mk "tracers" "dyn_grid" 1 none Bundling.Required Relationship.None []))
      Bundling.Preferred Relationship.Child ["qv"]).relative_type = Relationship.Child ∧
    (mk "tracers_subset" "dyn_grid" 1
      (some (mk "tracers" "dyn_grid" 1 none Bundling.Required Relationship.None []))
      Bundling.Preferred Relationship.Child ["qv"]).releative.isSome = true :=
  exclude_nonempty_of_constructed _
    ⟨"tracers_subset", "dyn_grid", 1, Bundling.Preferred,
      some (mk "tracers" "dyn_grid" 1 none Bundling.Required Relationship.None []),
      Relationship.Child, ["qv"], Relationship.None, by simp [ctor, releative]⟩
    (by simp [exclude])

/-- C19.  The main constructor succeeds exactly when `pack_size ≥ 1` and either the
relative is absent, or it is present with a relationship other than `None`, with an empty
exclude list or the relationship `Child`, and without relative of its own; in every other
case it raises an error. -/
theorem ctor_ok_iff (name_ grid_ : String) (ps : Int) (b : Bundling)
    (r : Option GroupRequest) (t : Relationship) (excl : List String)
    (uninit : Relationship) :
    ((∃ g, ctor name_ grid_ ps b r t excl uninit = .ok g) ↔
      ps ≥ 1 ∧ (r = none ∨ ∃ r', r = some r' ∧ t ≠ Relationship.None ∧
        (excl = [] ∨ t = Relationship.Child) ∧ r'.releative = none)) ∧
    ((¬ ∃ g, ctor name_ grid_ ps b r t excl uninit = .ok g) →
      ∃ msg, ctor name_ grid_ ps b r t excl uninit = .error msg) := by
  constructor
  · constructor
    · rintro ⟨g, h⟩
      obtain ⟨hps, ⟨hr, _⟩ | ⟨r', hr, ht, hex, hn, _⟩⟩ := ctor_ok_cases h
      · exact ⟨hps, Or.inl hr⟩
      · exact ⟨hps, Or.inr ⟨r', hr, ht, hex, hn⟩⟩
    · rintro ⟨hps, rfl | ⟨r', rfl, ht, hex, hn⟩⟩
      · exact ⟨mk name_ grid_ ps none b uninit [], by simp [ctor, hps]⟩
      · have hex' : excl.length = 0 ∨ t = Relationship.Child :=
          hex.imp (fun h => by rw [h]; rfl) id
        refine ⟨mk name_ grid_ ps (some r') b t excl, ?_⟩
        unfold ctor
        rw [if_neg (not_not.mpr hps)]
        simp only
        rw [if_neg (not_not.mpr ht), if_neg (not_not.mpr hex'),
          if_neg (not_not.mpr (by rw [hn]; rfl))]
  · intro hno
    cases h : ctor name_ grid_ ps b r t excl uninit with
    | error msg => exact ⟨msg, rfl⟩
    | ok g => exact absurd ⟨g, h⟩ hno

/-- Witness of C19: a relative that has a relative itself makes the constructor fail. -/
theorem ctor_ok_iff_witness :
    ∃ msg, ctor "subsub" "dyn_grid" 1 Bundling.Preferred
      (some (mk "sub" "dyn_grid" 1
        (some (mk "tracers" "dyn_grid" 1 none Bundling.Required Relationship.None []))
        Bundling.Preferred Relationship.Alias []))
      Relationship.Child ["qv"] Relationship.None = .error msg :=
  (ctor_ok_iff "subsub" "dyn_grid" 1 Bundling.Preferred
      (some (mk "sub" "dyn_grid" 1
        (some (mk "tracers" "dyn_grid" 1 none Bundling.Required Relationship.None []))
        Bundling.Preferred Relationship.Alias []))
      Relationship.Child ["qv"] Relationship.None).2 (by simp [ctor, releative])

/-- The key compared by `lt` does not depend on the exclude list. -/
theorem key_eq_of_fields_eq {a b : GroupRequest} (hn : a.name = b.name)
    (hg : a.grid = b.grid) (hp : a.pack_size = b.pack_size) (hb : a.bundling = b.bundling)
    (ht : a.relative_type = b.relative_type) (hr : a.releative = b.releative) :
    key a = key b := by
  obtain ⟨n1, g1, p1, r1, b1, t1, e1⟩ := a
  obtain ⟨n2, g2, p2, r2, b2, t2, e2⟩ := b
  simp only [name, grid, pack_size, bundling, relative_type, releative] at hn hg hp hb ht hr
  subst hn hg hp hb ht hr
  cases r1 <;> rfl

/-- C20.  The exclude list takes no part in the order: two successfully constructed
`Child` requests with the same name, grid, pack size, bundling, relationship and relative
are unordered whatever their exclude lists, and a `std::set` into which both are inserted
keeps the first one only. -/
theorem unordered_of_eq_up_to_exclude (a b : GroupRequest) (ha : Constructed a)
    (hb : Constructed b) (hta : a.relative_type = Relationship.Child)
    (htb : b.relative_type = Relationship.Child) (hn : a.name = b.name)
    (hg : a.grid = b.grid) (hp : a.pack_size = b.pack_size)
    (hbd : a.bundling = b.bundling) (hr : a.releative = b.releative) :
    Unordered a b ∧ set_insert b (set_insert a []) = [a] := by
  have hu : Unordered a b :=
    (unordered_iff_key_eq ha.noNested hb.noNested).mpr
      (key_eq_of_fields_eq hn hg hp hbd (hta.trans htb.symm) hr)
  refine ⟨hu, ?_⟩
  simp [set_insert, hu.1, hu.2]

/-- Witness of C20: two children of `tracers`, one excluding `qv`, the other `qc`. -/
theorem unordered_of_eq_up_to_exclude_witness :
    Unordered
      (mk "sub" "dyn_grid" 1
        (some (mk "tracers" "dyn_grid" 1 none Bundling.Required Relationship.None []))
        Bundling.Preferred Relationship.Child ["qv"])
      (mk "sub" "dyn_grid" 1
        (some (mk "tracers" "dyn_grid" 1 none Bundling.Required Relationship.None []))
        Bundling.Preferred Relationship.Child ["qc"]) ∧
    set_insert
      (mk "sub" "dyn_grid" 1
        (some (mk "tracers" "dyn_grid" 1 none Bundling.Required Relationship.None []))
        Bundling.Preferred Relationship.Child ["qc"])
      (set_insert
        (mk "sub" "dyn_grid" 1
          (some (mk "tracers" "dyn_grid" 1 none Bundling.Required Relationship.None []))
          Bundling.Preferred Relationship.Child ["qv"]) []) =
      [mk "sub" "dyn_grid" 1
        (some (mk "tracers" "dyn_grid" 1 none Bundling.Required Relationship.None []))
        Bundling.Preferred Relationship.Child ["qv"]] :=
  unordered_of_eq_up_to_exclude _ _
    ⟨"sub", "dyn_grid", 1, Bundling.Preferred,
      some (mk "tracers" "dyn_grid" 1 none Bundling.Required Relationship.None []),
      Relationship.Child, ["qv"], Relationship.None, by simp [ctor, releative]⟩
    ⟨"sub", "dyn_grid", 1, Bundling.Preferred,
      some (mk "tracers" "dyn_grid" 1 none Bundling.Required Relationship.None []),
      Relationship.Child, ["qc"], Relationship.None, by simp [ctor, releative]⟩
    rfl rfl rfl rfl rfl rfl rfl

end GroupRequest


/-- The algorithm `lexicographical_compare` decides the lexicographic order of lists. -/
theorem lexicographical_compare_iff (xs ys : List String) :
    lexicographical_compare xs ys = true ↔ xs < ys := by
  induction xs generalizing ys with
  | nil =>
    cases ys with
    | nil => simp [lexicographical_compare]
    | cons y ys =>
      simp only [lexicographical_compare, true_iff]
      exact List.Lex.nil
  | cons x xs ih =>
    cases ys with
    | nil => simp [lexicographical_compare]
    | cons y ys =>
      rw [lexicographical_compare]
      rcases lt_trichotomy x y with h | h | h
      · simp only [h, if_true, true_iff]
        exact List.Lex.rel h
      · subst h
        simp only [lt_irrefl, if_false]
        rw [ih]
        exact (List.Lex.cons_iff (r := (· < ·))).symm
      · simp only [h.not_lt, h, if_false, if_true, Bool.false_eq_true, false_iff]
        intro hlt
        cases hlt with
        | cons h' => exact lt_irrefl _ h
        | rel h' => exact lt_asymm h h'

/-- The `operator<` of `FieldRequest` is the order of the specification as soon as
`operator==` of `FieldIdentifier` is equality. -/
theorem FieldRequest.lt_iff_specLt_aux {FID : Type} (fidLt fidEq : FID → FID → Bool)
    (heq : ∀ x y, fidEq x y = true ↔ x = y) (a b : FieldRequest FID) :
    FieldRequest.lt fidLt fidEq a b = true ↔ FieldRequest.specLt fidLt a b := by
  unfold FieldRequest.lt FieldRequest.specLt
  by_cases h1 : fidLt a.fid b.fid = true
  · simp [h1]
  · rw [if_neg h1]
    by_cases h2 : a.fid = b.fid
    · rw [if_pos ((heq _ _).mpr h2)]
      by_cases h3 : a.pack_size < b.pack_size
      · rw [if_pos h3]
        exact ⟨fun _ => Or.inr ⟨h2, Or.inl h3⟩, fun _ => rfl⟩
      · rw [if_neg h3]
        by_cases h4 : a.pack_size = b.pack_size
        · rw [if_pos h4, lexicographical_compare_iff]
          constructor
          · exact fun h => Or.inr ⟨h2, Or.inr ⟨h4, h⟩⟩
          · rintro (h | ⟨_, h | ⟨_, h⟩⟩)
            · exact absurd h h1
            · exact absurd h h3
            · exact h
        · rw [if_neg h4]
          constructor
          · intro h
            exact Bool.noConfusion h
          · rintro (h | ⟨_, h | ⟨h, _⟩⟩)
            · exact absurd h h1
            · exact absurd h h3
            · exact absurd h h4
    · rw [if_neg (fun h => h2 ((heq _ _).mp h))]
      constructor
      · intro h
        exact Bool.noConfusion h
      · rintro (h | ⟨h, _⟩)
        · exact absurd h h1
        · exact absurd h h2

/-- The order of the specification on `FieldRequest` is irreflexive. -/
theorem FieldRequest.specLt_irrefl {FID : Type} {fidLt fidEq : FID → FID → Bool}
    (hfid : StrictTotalFID fidLt fidEq) (a : FieldRequest FID) :
    ¬ FieldRequest.specLt fidLt a a := by
  rintro (h | ⟨_, h | ⟨_, h⟩⟩)
  · rw [hfid.irrefl] at h
    exact Bool.noConfusion h
  · exact lt_irrefl _ h
  · exact lt_irrefl _ h

/-- The order of the specification on `FieldRequest` is transitive. -/
theorem FieldRequest.specLt_trans {FID : Type} {fidLt fidEq : FID → FID → Bool}
    (hfid : StrictTotalFID fidLt fidEq) {a b c : FieldRequest FID}
    (hab : FieldRequest.specLt fidLt a b) (hbc : FieldRequest.specLt fidLt b c) :
    FieldRequest.specLt fidLt a c := by
  rcases hab with h1 | ⟨e1, h1⟩
  · rcases hbc with h2 | ⟨e2, _⟩
    · exact Or.inl (hfid.trans _ _ _ h1 h2)
    · exact Or.inl (e2 ▸ h1)
  · rcases hbc with h2 | ⟨e2, h2⟩
    · exact Or.inl (e1 ▸ h2)
    · refine Or.inr ⟨e1.trans e2, ?_⟩
      rcases h1 with p1 | ⟨q1, g1⟩
      · rcases h2 with p2 | ⟨q2, _⟩
        · exact Or.inl (lt_trans p1 p2)
        · exact Or.inl (q2 ▸ p1)
      · rcases h2 with p2 | ⟨q2, g2⟩
        · exact Or.inl (q1 ▸ p2)
        · exact Or.inr ⟨q1.trans q2, lt_trans g1 g2⟩

/-- Two requests are ordered one way or the other by the order of the specification, or
have the same identifier, pack size and groups list. -/
theorem FieldRequest.specLt_total {FID : Type} {fidLt fidEq : FID → FID → Bool}
    (hfid : StrictTotalFID fidLt fidEq) (a b : FieldRequest FID) :
    FieldRequest.specLt fidLt a b ∨ FieldRequest.specLt fidLt b a ∨
      (a.fid = b.fid ∧ a.pack_size = b.pack_size ∧ a.groups = b.groups) := by
  rcases hfid.total a.fid b.fid with h | h | h
  · exact Or.inl (Or.inl h)
  · rcases lt_trichotomy a.pack_size b.pack_size with p | p | p
    · exact Or.inl (Or.inr ⟨h, Or.inl p⟩)
    · rcases lt_trichotomy a.groups b.groups with g | g | g
      · exact Or.inl (Or.inr ⟨h, Or.inr ⟨p, g⟩⟩)
      · exact Or.inr (Or.inr ⟨h, p, g⟩)
      · exact Or.inr (Or.inl (Or.inr ⟨h.symm, Or.inr ⟨p.symm, g⟩⟩))
    · exact Or.inr (Or.inl (Or.inr ⟨h.symm, Or.inl p⟩))
  · exact Or.inr (Or.inl (Or.inl h))

/-- The operators of `String` satisfy the assumption made on `FieldIdentifier`. -/
theorem strictTotalFID_string :
    StrictTotalFID (fun x y : String => decide (x < y)) (fun x y => decide (x = y)) where
  eq_iff x y := by simp
  irrefl x := by simp
  trans x y z h1 h2 := by
    simp only [decide_eq_true_eq] at h1 h2 ⊢
    exact lt_trans h1 h2
  total x y := by
    simp only [decide_eq_true_eq]
    exact lt_trichotomy x y


/-! ## Claims on the order of `FieldRequest` -/

/-- C13.  When the `FieldIdentifier` order is a strict total order consistent with its
equality, `a < b` holds for two `FieldRequest`s exactly when `(identifier, pack_size,
groups)` of `a` is lexicographically smaller than that of `b`, the groups lists being
compared element by element as sequences of strings. -/
theorem FieldRequest.lt_iff_specLt {FID : Type} (fidLt fidEq : FID → FID → Bool)
    (hfid : StrictTotalFID fidLt fidEq) (a b : FieldRequest FID) :
    FieldRequest.lt fidLt fidEq a b = true ↔ FieldRequest.specLt fidLt a b :=
  FieldRequest.lt_iff_specLt_aux fidLt fidEq hfid.eq_iff a b

/-- Witness of C13, with strings as identifiers: two requests for `qv` of pack size 4,
the groups list of the first being a proper initial segment of that of the second. -/
theorem FieldRequest.lt_iff_specLt_witness :
    FieldRequest.lt (fun x y : String => decide (x < y)) (fun x y => decide (x = y))
      ⟨"qv", 4, ["tracers"]⟩ ⟨"qv", 4, ["tracers", "water"]⟩ = true :=
  (FieldRequest.lt_iff_specLt _ _ strictTotalFID_string
      ⟨"qv", 4, ["tracers"]⟩ ⟨"qv", 4, ["tracers", "water"]⟩).mpr
    (Or.inr ⟨rfl, Or.inr ⟨rfl, List.Lex.cons List.Lex.nil⟩⟩)

/-- C14.  When the `FieldIdentifier` order is a strict total order consistent with its
equality, the order of `FieldRequest` is a strict total order: it is irreflexive and
transitive, and of `a < b`, `b < a` and "equal identifier, pack size and groups list"
exactly one holds. -/
theorem FieldRequest.lt_strict_total {FID : Type} (fidLt fidEq : FID → FID → Bool)
    (hfid : StrictTotalFID fidLt fidEq) (a b c : FieldRequest FID) :
    FieldRequest.lt fidLt fidEq a a = false ∧
    (FieldRequest.lt fidLt fidEq a b = true → FieldRequest.lt fidLt fidEq b c = true →
      FieldRequest.lt fidLt fidEq a c = true) ∧
    (FieldRequest.lt fidLt fidEq a b = true ∨ FieldRequest.lt fidLt fidEq b a = true ∨
      (a.fid = b.fid ∧ a.pack_size = b.pack_size ∧ a.groups = b.groups)) ∧
    ¬ (FieldRequest.lt fidLt fidEq a b = true ∧ FieldRequest.lt fidLt fidEq b a = true) ∧
    ¬ (FieldRequest.lt fidLt fidEq a b = true ∧
        (a.fid = b.fid ∧ a.pack_size = b.pack_size ∧ a.groups = b.groups)) ∧
    ¬ (FieldRequest.lt fidLt fidEq b a = true ∧
        (a.fid = b.fid ∧ a.pack_size = b.pack_size ∧ a.groups = b.groups)) := by
  have hiff := FieldRequest.lt_iff_specLt_aux fidLt fidEq hfid.eq_iff
  have hirr : ∀ x : FieldRequest FID, ¬ FieldRequest.lt fidLt fidEq x x = true :=
    fun x h => FieldRequest.specLt_irrefl hfid x ((hiff x x).mp h)
  have hext : ∀ x y : FieldRequest FID,
      x.fid = y.fid ∧ x.pack_size = y.pack_size ∧ x.groups = y.groups → x = y := by
    rintro ⟨f1, p1, g1⟩ ⟨f2, p2, g2⟩ ⟨h1, h2, h3⟩
    simp only at h1 h2 h3
    subst h1 h2 h3
    rfl
  refine ⟨by simpa using hirr a, ?_, ?_, ?_, ?_, ?_⟩
  · intro hab hbc
    exact (hiff a c).mpr (FieldRequest.specLt_trans hfid ((hiff a b).mp hab) ((hiff b c).mp hbc))
  · rcases FieldRequest.specLt_total hfid a b with h | h | h
    · exact Or.inl ((hiff a b).mpr h)
    · exact Or.inr (Or.inl ((hiff b a).mpr h))
    · exact Or.inr (Or.inr h)
  · rintro ⟨hab, hba⟩
    exact FieldRequest.specLt_irrefl hfid a
      (FieldRequest.specLt_trans hfid ((hiff a b).mp hab) ((hiff b a).mp hba))
  · rintro ⟨hab, he⟩
    rw [hext a b he] at hab
    exact hirr b hab
  · rintro ⟨hba, he⟩
    rw [hext a b he] at hba
    exact hirr b hba

/-- Witness of C14, with strings as identifiers: requests for `qc` and `qv` of pack sizes
8, 4 and 16; the first is less than the third through the second. -/
theorem FieldRequest.lt_strict_total_witness :
    FieldRequest.lt (fun x y : String => decide (x < y)) (fun x y => decide (x = y))
      ⟨"qc", 8, ["tracers"]⟩ ⟨"qv", 16, []⟩ = true :=
  (FieldRequest.lt_strict_total _ _ strictTotalFID_string
      ⟨"qc", 8, ["tracers"]⟩ ⟨"qv", 4, []⟩ ⟨"qv", 16, []⟩).2.1
    (by
      have h : ("qc" : String) < "qv" := by rw [String.lt_iff_toList_lt]; decide
      simp [FieldRequest.lt, h])
    (by simp [FieldRequest.lt])


/-- The `FieldRequest` constructor accepts the powers of two. -/
theorem FieldRequest.ctor_ok_of_pow_two {FID : Type} (fid : FID) (groups : List String)
    (ps : Int) (h : ∃ k : Nat, ps = 2 ^ k) :
    FieldRequest.ctor fid groups ps = .ok ⟨fid, ps, groups⟩ := by
  obtain ⟨h1, h2⟩ := (int_checks_iff_pow_two ps).mpr h
  unfold FieldRequest.ctor
  rw [if_neg (not_not.mpr h1), if_neg (not_not.mpr h2)]

/-! ## Claims on the registry and the resolver -/

/-- C15.  Submitting two `FieldRequest`s of the same identifier, with pack sizes accepted
by the constructor, to a registry that has no entry of this identifier adds one entry:
its pack size is the maximum of the two pack sizes, its groups are the union of the two
groups lists, and the merged pack size with the merged groups is again accepted by the
`FieldRequest` constructor. -/
theorem submitFieldRequest_twice {FID : Type} [DecidableEq FID]
    (registry : List (FieldRequest FID)) (fid : FID) (g₁ g₂ : List String) (ps₁ ps₂ : Int)
    (hreg : ∀ e ∈ registry, e.fid ≠ fid) (h₁ : ∃ k : Nat, ps₁ = 2 ^ k)
    (h₂ : ∃ k : Nat, ps₂ = 2 ^ k) :
    ∃ m : FieldRequest FID,
      (submitFieldRequest registry fid g₁ ps₁ >>= fun reg =>
        submitFieldRequest reg fid g₂ ps₂) = .ok (registry ++ [m]) ∧
      m.fid = fid ∧ m.pack_size = max ps₁ ps₂ ∧
      (∀ x, x ∈ m.groups ↔ x ∈ g₁ ∨ x ∈ g₂) ∧
      FieldRequest.ctor fid m.groups m.pack_size = .ok m := by
  refine ⟨⟨fid, max ps₁ ps₂, g₁ ∪ g₂⟩, ?_, rfl, rfl, fun x => List.mem_union_iff, ?_⟩
  · have hany : registry.any (fun e => decide (e.fid = fid)) = false := by
      rw [List.any_eq_false]
      intro e he
      simpa using hreg e he
    have hany' : (registry ++ [(⟨fid, ps₁, g₁⟩ : FieldRequest FID)]).any
        (fun e => decide (e.fid = fid)) = true := by
      simp
    have hmap : registry.map
        (fun e => if e.fid = fid then mergeFieldRequest e ⟨fid, ps₂, g₂⟩ else e) =
        registry := by
      conv_rhs => rw [← List.map_id registry]
      apply List.map_congr_left
      intro e he
      rw [if_neg (hreg e he)]
      rfl
    have hstep₁ : submitFieldRequest registry fid g₁ ps₁ =
        .ok (registry ++ [⟨fid, ps₁, g₁⟩]) := by
      unfold submitFieldRequest
      rw [FieldRequest.ctor_ok_of_pow_two fid g₁ ps₁ h₁]
      simp only [hany, Bool.false_eq_true, if_false]
    have hstep₂ : submitFieldRequest (registry ++ [⟨fid, ps₁, g₁⟩]) fid g₂ ps₂ =
        .ok (registry ++ [⟨fid, max ps₁ ps₂, g₁ ∪ g₂⟩]) := by
      unfold submitFieldRequest
      rw [FieldRequest.ctor_ok_of_pow_two fid g₂ ps₂ h₂]
      simp only [hany', if_true, List.map_append, hmap, List.map_cons, List.map_nil]
      rfl
    rw [hstep₁]
    exact hstep₂
  · apply FieldRequest.ctor_ok_of_pow_two
    rcases max_choice ps₁ ps₂ with h | h
    · rw [h]; exact h₁
    · rw [h]; exact h₂

/-- Witness of C15: pack sizes 4 then 8 for `qv`, with groups `tracers` and `water`,
submitted to the empty registry. -/
theorem submitFieldRequest_twice_witness :
    ∃ m : FieldRequest String,
      (submitFieldRequest [] "qv" ["tracers"] 4 >>= fun reg =>
        submitFieldRequest reg "qv" ["water"] 8) = .ok ([] ++ [m]) ∧
      m.fid = "qv" ∧ m.pack_size = max 4 8 ∧
      (∀ x, x ∈ m.groups ↔ x ∈ ["tracers"] ∨ x ∈ ["water"]) ∧
      FieldRequest.ctor "qv" m.groups m.pack_size = .ok m :=
  submitFieldRequest_twice [] "qv" ["tracers"] ["water"] 4 8 (by simp)
    ⟨2, by norm_num⟩ ⟨3, by norm_num⟩


/-- C16.  For a successfully constructed `Child` group `g` with relative `r`, the relative
resolves to a field set `rel`; when every name of the exclude list is in `rel`, `g`
resolves to `rel` minus the excluded names; and when an excluded name `x` is not in `rel`,
the resolution of `g` fails with an error list that holds `ExcludedFieldNotFound` for `x`
and the relative. -/
theorem resolve_child {FID : Type} (fidName fidGrid : FID → String)
    (fields : List (FieldRequest FID)) (g r : GroupRequest) (hg : GroupRequest.Constructed g)
    (hr : g.releative = some r) (ht : g.relative_type = Relationship.Child) :
    ∃ rel, resolve fidName fidGrid fields r = .ok rel ∧
      ((∀ x ∈ g.exclude, x ∈ rel) →
        ∃ s, resolve fidName fidGrid fields g = .ok s ∧
          s = rel.filter (fun x => decide (x ∉ g.exclude)) ∧
          ∀ x, x ∈ s ↔ x ∈ rel ∧ x ∉ g.exclude) ∧
      (∀ x ∈ g.exclude, x ∉ rel →
        ∃ errs, resolve fidName fidGrid fields g = .error errs ∧
          ResolveError.ExcludedFieldNotFound x r.name ∈ errs) := by
  have hrel : r.releative = none := hg.noNested r hr
  refine ⟨baseFieldSet fidName fidGrid fields r, ?_, ?_, ?_⟩
  · unfold resolve
    rw [hrel]
  · intro hall
    have hall' : g.exclude.all
        (fun x => decide (x ∈ baseFieldSet fidName fidGrid fields r)) = true := by
      rw [List.all_eq_true]
      intro x hx
      simpa using hall x hx
    refine ⟨_, ?_, rfl, fun x => by simp [List.mem_filter]⟩
    unfold resolve
    rw [hr]
    simp only [ht]
    rw [if_pos hall']
  · intro x hx hnot
    have hall' : ¬ g.exclude.all
        (fun x => decide (x ∈ baseFieldSet fidName fidGrid fields r)) = true := by
      rw [List.all_eq_true]
      intro h
      exact hnot (by simpa using h x hx)
    refine ⟨(g.exclude.filter fun x =>
        decide (x ∉ baseFieldSet fidName fidGrid fields r)).map
      fun x => ResolveError.ExcludedFieldNotFound x r.name, ?_, ?_⟩
    · unfold resolve
      rw [hr]
      simp only [ht]
      rw [if_neg hall']
    · rw [List.mem_map]
      exact ⟨x, List.mem_filter.mpr ⟨hx, by simpa using hnot⟩, rfl⟩

/-- Witness of C16: the scenario of §8 of the specification, the group `tracers_subset`
being the child of `tracers` that excludes `qv`. -/
theorem resolve_child_witness :
    ∃ rel, resolve Prod.fst Prod.snd scenarioFields scenarioTracers = .ok rel ∧
      ((∀ x ∈ scenarioSubset.exclude, x ∈ rel) →
        ∃ s, resolve Prod.fst Prod.snd scenarioFields scenarioSubset = .ok s ∧
          s = rel.filter (fun x => decide (x ∉ scenarioSubset.exclude)) ∧
          ∀ x, x ∈ s ↔ x ∈ rel ∧ x ∉ scenarioSubset.exclude) ∧
      (∀ x ∈ scenarioSubset.exclude, x ∉ rel →
        ∃ errs, resolve Prod.fst Prod.snd scenarioFields scenarioSubset = .error errs ∧
          ResolveError.ExcludedFieldNotFound x scenarioTracers.name ∈ errs) :=
  resolve_child Prod.fst Prod.snd scenarioFields scenarioSubset scenarioTracers
    ⟨"tracers_subset", "dyn_grid", 1, Bundling.Preferred, some scenarioTracers,
      Relationship.Child, ["qv"], Relationship.None,
      by simp [GroupRequest.ctor, GroupRequest.releative, scenarioTracers, scenarioSubset]⟩
    rfl rfl

/-! ## Claims on the radiation utilities -/

/-- C17.  For every radiation frequency `irad ≥ 1` and step number `nstep ≥ 0`,
`radiation_do irad nstep` is true exactly when `nstep` is a multiple of `irad`; in
particular `radiation_do 1 nstep` is true; and the unit test of the source passes. -/
theorem radiation_do_iff_multiple (irad nstep : Int) (hirad : irad ≥ 1) (hnstep : nstep ≥ 0) :
    (radiation_do irad nstep = true ↔ ∃ k : Int, nstep = k * irad) ∧
    radiation_do 1 nstep = true ∧
    rrtmgp_test_radiation_do radiation_do = true := by
  have hmod : ∀ i : Int, i ≥ 1 → Int.tmod nstep i = nstep % i := fun i hi =>
    Int.tmod_eq_emod hnstep (by omega)
  refine ⟨?_, ?_, by decide⟩
  · unfold radiation_do
    rw [hmod irad hirad, beq_iff_eq]
    constructor
    · intro h
      obtain ⟨k, hk⟩ := Int.dvd_of_emod_eq_zero h
      exact ⟨k, by rw [hk, mul_comm]⟩
    · rintro ⟨k, rfl⟩
      exact Int.mul_emod_left k irad
  · unfold radiation_do
    rw [hmod 1 (le_refl 1), beq_iff_eq]
    exact Int.emod_one nstep

/-- Witness of C17: with radiation every third step, radiation is done at step 6. -/
theorem radiation_do_iff_multiple_witness : radiation_do 3 6 = true :=
  ((radiation_do_iff_multiple 3 6 (by decide) (by decide)).1).mpr ⟨2, by decide⟩

/-- C18.  For every 2-d array `arr` and bounds `lo ≤ hi`, after
`limit_to_bounds arr lo hi out` the array `arr` is unchanged, `out` has an element exactly
where `arr` has one, and the element of `out` matching an element `x` of `arr` is `x` when
`lo ≤ x ≤ hi`, `lo` when `x < lo` and `hi` when `hi < x`; and the unit test of the source
passes. -/
theorem limit_to_bounds_clamps {α : Type} [LinearOrder α] (arr out : List (List α))
    (lo hi : α) (hlohi : lo ≤ hi) :
    (limit_to_bounds arr lo hi out).1 = arr ∧
    (∀ i j, elem2d (limit_to_bounds arr lo hi out).2 i j =
      (elem2d arr i j).map fun x => if x < lo then lo else if hi < x then hi else x) ∧
    (∀ i j x, elem2d arr i j = some x →
      (lo ≤ x → x ≤ hi → elem2d (limit_to_bounds arr lo hi out).2 i j = some x) ∧
      (x < lo → elem2d (limit_to_bounds arr lo hi out).2 i j = some lo) ∧
      (hi < x → elem2d (limit_to_bounds arr lo hi out).2 i j = some hi)) ∧
    rrtmgp_test_limit_to_bounds limit_to_bounds := by
  have hclamp : ∀ x : α, min (max x lo) hi =
      if x < lo then lo else if hi < x then hi else x := by
    intro x
    by_cases h1 : x < lo
    · rw [if_pos h1, max_eq_right h1.le, min_eq_left hlohi]
    · rw [if_neg h1, max_eq_left (not_lt.mp h1)]
      by_cases h2 : hi < x
      · rw [if_pos h2, min_eq_right h2.le]
      · rw [if_neg h2, min_eq_left (not_lt.mp h2)]
  have hall : ∀ i j, elem2d (limit_to_bounds arr lo hi out).2 i j =
      (elem2d arr i j).map fun x => if x < lo then lo else if hi < x then hi else x := by
    intro i j
    simp only [elem2d, limit_to_bounds, List.getElem?_map]
    cases arr[i - 1]? with
    | none => rfl
    | some row =>
      simp only [Option.map_some', Option.some_bind, List.getElem?_map]
      cases row[j - 1]? with
      | none => rfl
      | some x => simp [hclamp]
  refine ⟨rfl, hall, ?_, ?_⟩
  · intro i j x hx
    rw [hall, hx]
    refine ⟨fun h1 h2 => ?_, fun h1 => ?_, fun h2 => ?_⟩
    · simp [not_lt.mpr h1, not_lt.mpr h2]
    · simp [h1]
    · simp [not_lt.mpr (hlohi.trans h2.le), h2]
  · unfold rrtmgp_test_limit_to_bounds
    simp only [limit_to_bounds, elem2d]
    norm_num

/-- Witness of C18: the array of the unit test limited to the bounds 1.5 and 3.5; its
element at (1,1), equal to 1, becomes 1.5. -/
theorem limit_to_bounds_clamps_witness :
    elem2d (limit_to_bounds ([[1, 2], [3, 4]] : List (List ℚ)) (3 / 2) (7 / 2) []).2 1 1 =
      some (3 / 2) :=
  ((limit_to_bounds_clamps ([[1, 2], [3, 4]] : List (List ℚ)) [] (3 / 2) (7 / 2)
      (by norm_num)).2.2.1 1 1 1 rfl).2.1 (by norm_num)


namespace GroupRequest

/-! ## Claims on the values built by the `GroupRequest` constructors -/

/-- C21.  When the main constructor succeeds, the request stores the given name, grid,
pack size and bundling; if a relative `r'` was given, the relative of the request is `r'`,
its relationship is the given one and its exclude list is the given one; if no relative
was given, the request has no relative and an empty exclude list, whatever exclude
argument was passed. -/
theorem ctor_ok_members (name_ grid_ : String) (ps : Int) (b : Bundling)
    (r : Option GroupRequest) (t : Relationship) (excl : List String)
    (uninit : Relationship) (g : GroupRequest)
    (h : ctor name_ grid_ ps b r t excl uninit = .ok g) :
    g.name = name_ ∧ g.grid = grid_ ∧ g.pack_size = ps ∧ g.bundling = b ∧
    (∀ r', r = some r' →
      g.releative = some r' ∧ g.relative_type = t ∧ g.exclude = excl) ∧
    (r = none → g.releative = none ∧ g.exclude = []) := by
  obtain ⟨_, ⟨rfl, rfl⟩ | ⟨r', rfl, _, _, _, rfl⟩⟩ := ctor_ok_cases h
  · refine ⟨rfl, rfl, rfl, rfl, ?_, fun _ => ⟨rfl, rfl⟩⟩
    intro r' hr'
    exact absurd hr' (by simp)
  · refine ⟨rfl, rfl, rfl, rfl, ?_, ?_⟩
    · intro r'' hr''
      cases hr''
      exact ⟨rfl, rfl, rfl⟩
    · intro hr'
      exact absurd hr' (by simp)

/-- Witness of C21: the child `tracers_subset` of `tracers` that excludes `qv`. -/
theorem ctor_ok_members_witness :
    scenarioSubset.name = "tracers_subset" ∧ scenarioSubset.grid = "dyn_grid" ∧
    scenarioSubset.pack_size = 1 ∧ scenarioSubset.bundling = Bundling.Preferred ∧
    (∀ r', some scenarioTracers = some r' →
      scenarioSubset.releative = some r' ∧
      scenarioSubset.relative_type = Relationship.Child ∧
      scenarioSubset.exclude = ["qv"]) ∧
    (some scenarioTracers = none →
      scenarioSubset.releative = none ∧ scenarioSubset.exclude = []) :=
  ctor_ok_members "tracers_subset" "dyn_grid" 1 Bundling.Preferred (some scenarioTracers)
    Relationship.Child ["qv"] Relationship.None scenarioSubset
    (by simp [ctor, releative, scenarioTracers, scenarioSubset])

/-- C22.  The convenience constructor `GroupRequest (name, grid, bundling)` never fails:
for every name, grid and bundling it returns the request of pack size 1 without relative
and with an empty exclude list, which is the result of the main constructor called with
pack size 1, no relative, relationship `None` and an empty exclude list; with the bundling
argument omitted the bundling is `NotNeeded`. -/
theorem ctorBundling_eq_ctor (name_ grid_ : String) (b : Bundling) (uninit : Relationship) :
    ctorBundling name_ grid_ b uninit = .ok (mk name_ grid_ 1 none b uninit []) ∧
    ctorBundling name_ grid_ b uninit =
      ctor name_ grid_ 1 b none Relationship.None [] uninit ∧
    ctorDefaultBundling name_ grid_ uninit =
      .ok (mk name_ grid_ 1 none Bundling.NotNeeded uninit []) := by
  refine ⟨?_, rfl, ?_⟩ <;> simp [ctorDefaultBundling, ctorBundling, ctorPackSize, ctor]

end GroupRequest

/-! ## Claims on the P3 size distributions -/

/-- A mask with a true lane has `any`. -/
theorem Smask.any_of_lane {n : Nat} (m : Smask n) (s : Fin n) (h : m s = true) :
    Smask.any m = true := by
  unfold Smask.any
  rw [List.any_eq_true]
  exact ⟨s, List.mem_finRange s, h⟩

/-- After `get_cloud_dsd2` the packs `lamc`, `cdist` and `cdist1` are 0 on the lanes
where the mask is false. -/
theorem get_cloud_dsd2_zero_of_not_small {n : Nat} {α : Type} [LinearOrderedField α]
    [FloorRing α] (C : P3Constants α) (F : MathFns α) (qc_gt_small : Smask n)
    (qc nc mu_c rho nu : Spack n α) (dnu : Int → α) (lamc cdist cdist1 lcldm : Spack n α)
    (s : Fin n) (hs : qc_gt_small s = false) :
    (get_cloud_dsd2 C F qc_gt_small qc nc mu_c rho nu dnu lamc cdist cdist1 lcldm).lamc s
      = 0 ∧
    (get_cloud_dsd2 C F qc_gt_small qc nc mu_c rho nu dnu lamc cdist cdist1 lcldm).cdist s
      = 0 ∧
    (get_cloud_dsd2 C F qc_gt_small qc nc mu_c rho nu dnu lamc cdist cdist1 lcldm).cdist1 s
      = 0 := by
  refine ⟨?_, ?_, ?_⟩
  · show Spack.set _ (fun s => !qc_gt_small s) (fun _ => (0 : α)) s = 0
    unfold Spack.set
    simp [hs]
  · show Spack.set _ (fun s => !qc_gt_small s) (fun _ => (0 : α)) s = 0
    unfold Spack.set
    simp [hs]
  · show Spack.set _ (fun s => !qc_gt_small s) (fun _ => (0 : α)) s = 0
    unfold Spack.set
    simp [hs]

/-- C23 (evaluation of the code where the claim fails).  On a pack of two lanes whose
mask `qc_gt_small` is true on lane 0 and false on lane 1, with `mu_c = 100` on lane 1:
after `get_cloud_dsd2`, `lamc`, `cdist` and `cdist1` are 0 on lane 1, but `mu_c` on lane 1
is at most 15, so it has not kept its input value 100. -/
theorem get_cloud_dsd2_overwrites_masked_lane {α : Type} [LinearOrderedField α] [FloorRing α]
    (C : P3Constants α) (F : MathFns α) (qc nc rho nu : Spack 2 α) (dnu : Int → α)
    (lamc cdist cdist1 lcldm : Spack 2 α) :
    (get_cloud_dsd2 C F ![true, false] qc nc (fun _ => 100) rho nu dnu lamc cdist cdist1
      lcldm).lamc 1 = 0 ∧
    (get_cloud_dsd2 C F ![true, false] qc nc (fun _ => 100) rho nu dnu lamc cdist cdist1
      lcldm).cdist 1 = 0 ∧
    (get_cloud_dsd2 C F ![true, false] qc nc (fun _ => 100) rho nu dnu lamc cdist cdist1
      lcldm).cdist1 1 = 0 ∧
    (get_cloud_dsd2 C F ![true, false] qc nc (fun _ => 100) rho nu dnu lamc cdist cdist1
      lcldm).mu_c 1 ≤ 15 ∧
    (get_cloud_dsd2 C F ![true, false] qc nc (fun _ => 100) rho nu dnu lamc cdist cdist1
      lcldm).mu_c 1 ≠ (fun _ => (100 : α)) 1 := by
  have hany : Smask.any (![true, false] : Smask 2) = true :=
    Smask.any_of_lane _ 0 rfl
  have hmu : (get_cloud_dsd2 C F ![true, false] qc nc (fun _ => 100) rho nu dnu lamc cdist
      cdist1 lcldm).mu_c 1 ≤ 15 := by
    simp only [get_cloud_dsd2, hany, if_true]
    exact min_le_right _ _
  have hzero := get_cloud_dsd2_zero_of_not_small C F ![true, false] qc nc (fun _ => 100)
    rho nu dnu lamc cdist cdist1 lcldm 1 rfl
  refine ⟨hzero.1, hzero.2.1, hzero.2.2, hmu, ?_⟩
  · intro h
    rw [h] at hmu
    norm_num at hmu


/-- C24.  In `get_rain_dsd2`, on every lane `s` where the mask `qr_gt_small` is false,
after the call `lamr`, `cdistr` and `logn0r` are 0 and `nr` and `mu_r` have their input
values, whatever the mask and the inputs on the other lanes of the pack. -/
theorem get_rain_dsd2_masked_lane {n : Nat} {α : Type} [LinearOrderedField α]
    (C : P3Constants α) (F : MathFns α) (mu_r_table : Int → α) (qr_gt_small : Smask n)
    (qr nr mu_r lamr cdistr logn0r rcldm : Spack n α) (s : Fin n)
    (hs : qr_gt_small s = false) :
    (get_rain_dsd2 C F mu_r_table qr_gt_small qr nr mu_r lamr cdistr logn0r rcldm).lamr s
      = 0 ∧
    (get_rain_dsd2 C F mu_r_table qr_gt_small qr nr mu_r lamr cdistr logn0r rcldm).cdistr s
      = 0 ∧
    (get_rain_dsd2 C F mu_r_table qr_gt_small qr nr mu_r lamr cdistr logn0r rcldm).logn0r s
      = 0 ∧
    (get_rain_dsd2 C F mu_r_table qr_gt_small qr nr mu_r lamr cdistr logn0r rcldm).nr s
      = nr s ∧
    (get_rain_dsd2 C F mu_r_table qr_gt_small qr nr mu_r lamr cdistr logn0r rcldm).mu_r s
      = mu_r s := by
  unfold get_rain_dsd2
  by_cases hany : Smask.any qr_gt_small = true
  · simp only [hany, if_true]
    split_ifs <;>
      simp only [Spack.set, hs, Bool.false_eq_true, if_false, Bool.false_and, Bool.or_self,
        and_self]
  · simp only [hany, Bool.false_eq_true, if_false, and_self]

/-- Witness of C24 over the rationals: a pack of two lanes whose mask is true on lane 0
and false on lane 1, all the mathematical functions being the identity. -/
theorem get_rain_dsd2_masked_lane_witness :
    (get_rain_dsd2 (α := ℚ) ⟨1, 1, 1, 3, 1000, 1, 1⟩ ⟨fun x _ => x, id, id, id, id⟩
      (fun _ => 0) ![true, false] ![1, 0] ![5, 7] ![2, 3] ![9, 9] ![9, 9] ![9, 9]
      ![1, 1]).lamr 1 = 0 ∧
    (get_rain_dsd2 (α := ℚ) ⟨1, 1, 1, 3, 1000, 1, 1⟩ ⟨fun x _ => x, id, id, id, id⟩
      (fun _ => 0) ![true, false] ![1, 0] ![5, 7] ![2, 3] ![9, 9] ![9, 9] ![9, 9]
      ![1, 1]).cdistr 1 = 0 ∧
    (get_rain_dsd2 (α := ℚ) ⟨1, 1, 1, 3, 1000, 1, 1⟩ ⟨fun x _ => x, id, id, id, id⟩
      (fun _ => 0) ![true, false] ![1, 0] ![5, 7] ![2, 3] ![9, 9] ![9, 9] ![9, 9]
      ![1, 1]).logn0r 1 = 0 ∧
    (get_rain_dsd2 (α := ℚ) ⟨1, 1, 1, 3, 1000, 1, 1⟩ ⟨fun x _ => x, id, id, id, id⟩
      (fun _ => 0) ![true, false] ![1, 0] ![5, 7] ![2, 3] ![9, 9] ![9, 9] ![9, 9]
      ![1, 1]).nr 1 = (![5, 7] : Spack 2 ℚ) 1 ∧
    (get_rain_dsd2 (α := ℚ) ⟨1, 1, 1, 3, 1000, 1, 1⟩ ⟨fun x _ => x, id, id, id, id⟩
      (fun _ => 0) ![true, false] ![1, 0] ![5, 7] ![2, 3] ![9, 9] ![9, 9] ![9, 9]
      ![1, 1]).mu_r 1 = (![2, 3] : Spack 2 ℚ) 1 :=
  get_rain_dsd2_masked_lane _ _ _ _ _ _ _ _ _ _ _ 1 rfl


/-- The lambda limiter of `get_cloud_dsd2`: after the two `set` statements the value lies
between `lammin` and `lammax`, whenever `lammin ≤ lammax`. -/
theorem limiter_bounds {n : Nat} {α : Type} [LinearOrderedField α]
    (lam lammin lammax : Spack n α) (s : Fin n) (h : lammin s ≤ lammax s) :
    lammin s ≤
        Spack.set (Spack.set lam (fun s => decide (lam s < lammin s)) lammin)
          (fun s => decide (lam s > lammax s)) lammax s ∧
      Spack.set (Spack.set lam (fun s => decide (lam s < lammin s)) lammin)
          (fun s => decide (lam s > lammax s)) lammax s ≤ lammax s := by
  unfold Spack.set
  by_cases h1 : lam s > lammax s
  · simp only [h1, decide_True, if_true]
    exact ⟨h, le_refl _⟩
  · by_cases h2 : lam s < lammin s
    · simp only [h1, h2, decide_True, decide_False, if_true, Bool.false_eq_true, if_false]
      exact ⟨le_refl _, h⟩
    · simp only [h1, h2, decide_False, Bool.false_eq_true, if_false]
      exact ⟨not_lt.mp h2, not_lt.mp h1⟩

/-- C25.  After `get_cloud_dsd2`, read over exact arithmetic with `pow` and `tgamma` left
uninterpreted, every lane `s` where `qc_gt_small` is true satisfies the limiters:
`2 ≤ mu_c[s] ≤ 15` and `(mu_c[s]+1)*2.5e4 ≤ lamc[s] ≤ (mu_c[s]+1)*1e6`. -/
theorem get_cloud_dsd2_limiters {n : Nat} {α : Type} [LinearOrderedField α] [FloorRing α]
    (C : P3Constants α) (F : MathFns α) (qc_gt_small : Smask n)
    (qc nc mu_c rho nu : Spack n α) (dnu : Int → α) (lamc cdist cdist1 lcldm : Spack n α)
    (s : Fin n) (hs : qc_gt_small s = true) :
    2 ≤ (get_cloud_dsd2 C F qc_gt_small qc nc mu_c rho nu dnu lamc cdist cdist1 lcldm).mu_c s ∧
    (get_cloud_dsd2 C F qc_gt_small qc nc mu_c rho nu dnu lamc cdist cdist1 lcldm).mu_c s
      ≤ 15 ∧
    ((get_cloud_dsd2 C F qc_gt_small qc nc mu_c rho nu dnu lamc cdist cdist1 lcldm).mu_c s
        + 1) * 2.5e4 ≤
      (get_cloud_dsd2 C F qc_gt_small qc nc mu_c rho nu dnu lamc cdist cdist1 lcldm).lamc s ∧
    (get_cloud_dsd2 C F qc_gt_small qc nc mu_c rho nu dnu lamc cdist cdist1 lcldm).lamc s ≤
      ((get_cloud_dsd2 C F qc_gt_small qc nc mu_c rho nu dnu lamc cdist cdist1 lcldm).mu_c s
        + 1) * 1e6 := by
  have hany : Smask.any qc_gt_small = true := Smask.any_of_lane _ s hs
  have hlam : ∀ p : Spack n α,
      Spack.set p (fun s => !qc_gt_small s) (fun _ => (0 : α)) s = p s := by
    intro p
    unfold Spack.set
    simp [hs]
  simp only [get_cloud_dsd2, hany, if_true, hlam]
  have h2 : ∀ x : α, (2 : α) ≤ min (max x 2) 15 := fun x =>
    le_min (le_max_right _ _) (by norm_num)
  refine ⟨h2 _, min_le_right _ _, ?_⟩
  let mu : Spack n α := fun s =>
    min (max (1 / F.pow (0.0005714 * (max (nc s) C.NSMALL * 1e-6 * rho s) + 0.2714) 2 - 1) 2)
      15
  have hmu : (2 : α) ≤ mu s := h2 _
  exact limiter_bounds
    (fun s => F.pow (C.CONS1 * max (nc s) C.NSMALL * (mu s + 3) * (mu s + 2) * (mu s + 1) /
      qc s) C.THIRD)
    (fun s => (mu s + 1) * 2.5e4) (fun s => (mu s + 1) * 1e6) s
    (mul_le_mul_of_nonneg_left (by norm_num) (by linarith))

/-- Witness of C25 over the rationals: a pack of two lanes whose mask is true on lane 0
and false on lane 1, all the mathematical functions being the identity. -/
theorem get_cloud_dsd2_limiters_witness :
    2 ≤ (get_cloud_dsd2 (α := ℚ) ⟨1, 1, 1, 3, 1000, 1, 1⟩ ⟨fun x _ => x, id, id, id, id⟩
      ![true, false] ![1, 0] ![5, 7] ![2, 3] ![1, 1] ![0, 0] (fun _ => 0) ![9, 9] ![9, 9]
      ![9, 9] ![1, 1]).mu_c 0 ∧
    (get_cloud_dsd2 (α := ℚ) ⟨1, 1, 1, 3, 1000, 1, 1⟩ ⟨fun x _ => x, id, id, id, id⟩
      ![true, false] ![1, 0] ![5, 7] ![2, 3] ![1, 1] ![0, 0] (fun _ => 0) ![9, 9] ![9, 9]
      ![9, 9] ![1, 1]).mu_c 0 ≤ 15 ∧
    ((get_cloud_dsd2 (α := ℚ) ⟨1, 1, 1, 3, 1000, 1, 1⟩ ⟨fun x _ => x, id, id, id, id⟩
      ![true, false] ![1, 0] ![5, 7] ![2, 3] ![1, 1] ![0, 0] (fun _ => 0) ![9, 9] ![9, 9]
      ![9, 9] ![1, 1]).mu_c 0 + 1) * 2.5e4 ≤
      (get_cloud_dsd2 (α := ℚ) ⟨1, 1, 1, 3, 1000, 1, 1⟩ ⟨fun x _ => x, id, id, id, id⟩
      ![true, false] ![1, 0] ![5, 7] ![2, 3] ![1, 1] ![0, 0] (fun _ => 0) ![9, 9] ![9, 9]
      ![9, 9] ![1, 1]).lamc 0 ∧
    (get_cloud_dsd2 (α := ℚ) ⟨1, 1, 1, 3, 1000, 1, 1⟩ ⟨fun x _ => x, id, id, id, id⟩
      ![true, false] ![1, 0] ![5, 7] ![2, 3] ![1, 1] ![0, 0] (fun _ => 0) ![9, 9] ![9, 9]
      ![9, 9] ![1, 1]).lamc 0 ≤
      ((get_cloud_dsd2 (α := ℚ) ⟨1, 1, 1, 3, 1000, 1, 1⟩ ⟨fun x _ => x, id, id, id, id⟩
      ![true, false] ![1, 0] ![5, 7] ![2, 3] ![1, 1] ![0, 0] (fun _ => 0) ![9, 9] ![9, 9]
      ![9, 9] ![1, 1]).mu_c 0 + 1) * 1e6 :=
  get_cloud_dsd2_limiters _ _ _ _ _ _ _ _ _ _ _ _ _ 0 rfl

end scream
